import Mathlib

/-!
Verification of the bitmask N-Queens solution counter.

The repository contains two near-identical implementations (`DFS.py` and
`Genetic.py`) of the same algorithm: a recursive backtracker `backtrack`
over three bitmasks (occupied columns, major diagonals, minor diagonals),
a per-first-column `worker`, and a top-level aggregator
(`count_solutions` / `count_n_queens_parallel`) that exploits mirror
symmetry: it sums the workers for the first half of the columns, doubles
the sum, and adds an un-doubled central column when N is odd.

Python integers are unbounded, so masks and counts are embedded as `Nat`.
For a nonnegative Python integer `x`, the source expression
`~x & ((1 << n) - 1)` equals `((1 <<< n) - 1) ^^^ (x &&& ((1 <<< n) - 1))`,
and for a positive `a` the source expression `a & -a` (lowest set bit,
two's complement) equals `a ^^^ (a &&& (a - 1))`; these identities are the
only translation steps taken, and the bit-level behaviour of the
translated forms is established by the `testBit` lemmas below.
-/

/-- Number of set bits of a natural number (every set bit index `i`
satisfies `i < 2 ^ i ≤ x`, hence `i < x`, so `Finset.range x` covers all
of them). -/
def popcount (x : Nat) : Nat :=
  ((Finset.range x).filter (fun i => x.testBit i = true)).card

theorem testBit_two_mul_zero (x : Nat) : (2 * x).testBit 0 = false := by
  simp [Nat.testBit_zero, Nat.mul_mod_right]

theorem testBit_two_mul_add_one_zero (x : Nat) : (2 * x + 1).testBit 0 = true := by
  simp [Nat.testBit_zero, Nat.add_mul_mod_self_left]
  omega

theorem testBit_two_mul_succ (x i : Nat) : (2 * x).testBit (i + 1) = x.testBit i := by
  rw [Nat.testBit_add_one]
  congr 1
  omega

theorem testBit_two_mul_add_one_succ (x i : Nat) :
    (2 * x + 1).testBit (i + 1) = x.testBit i := by
  rw [Nat.testBit_add_one]
  congr 1
  omega

/-- The first bit-index where the predicate `testBit` holds is below any
set bit: a set bit at `i` forces `2 ^ i ≤ x`, hence `i < x`. -/
theorem testBit_index_lt {x i : Nat} (h : x.testBit i = true) : i < x :=
  Nat.lt_of_lt_of_le (Nat.lt_two_pow i) (Nat.testBit_implies_ge h)

/-- Core specification of the source's lowest-set-bit extraction
`position = available & -available` (translated as
`a ^^^ (a &&& (a - 1))`) together with the bit-clearing effect of
`available -= position` (whose result is `a &&& (a - 1)`). -/
theorem lowbit_spec {a : Nat} (h : a ≠ 0) :
    ∃ j, a ^^^ (a &&& (a - 1)) = 2 ^ j ∧ a.testBit j = true ∧
      (∀ i, i < j → a.testBit i = false) ∧
      a &&& (a - 1) = a - 2 ^ j ∧
      (∀ i, (a &&& (a - 1)).testBit i = (a.testBit i && !decide (i = j))) := by
  induction a using Nat.strong_induction_on with
  | _ a ih =>
    rcases Nat.even_or_odd a with ⟨b, hb⟩ | ⟨b, hb⟩
    · -- a = 2 * b with b ≠ 0
      have hb' : a = 2 * b := by omega
      have hbne : b ≠ 0 := by omega
      obtain ⟨j, hpow, hbit, hlow, hsub, hbits⟩ := ih b (by omega) hbne
      have hpred : a - 1 = 2 * (b - 1) + 1 := by omega
      have hland : a &&& (a - 1) = 2 * (b &&& (b - 1)) := by
        apply Nat.eq_of_testBit_eq
        intro i
        cases i with
        | zero =>
          rw [Nat.testBit_and, hpred, hb', testBit_two_mul_zero]
          simp [testBit_two_mul_zero]
        | succ i =>
          rw [Nat.testBit_and, hpred, hb', testBit_two_mul_succ,
            testBit_two_mul_add_one_succ, testBit_two_mul_succ, ← Nat.testBit_and]
      refine ⟨j + 1, ?_, ?_, ?_, ?_, ?_⟩
      · apply Nat.eq_of_testBit_eq
        intro i
        cases i with
        | zero =>
          rw [Nat.testBit_xor, hland, hb', testBit_two_mul_zero, testBit_two_mul_zero]
          simp [Nat.testBit_two_pow]
        | succ i =>
          rw [Nat.testBit_xor, hland, hb', testBit_two_mul_succ, testBit_two_mul_succ,
            ← Nat.testBit_xor, hpow, Nat.testBit_two_pow, Nat.testBit_two_pow]
          simp only [decide_eq_decide]
          omega
      · rw [hb', testBit_two_mul_succ]
        exact hbit
      · intro i hi
        cases i with
        | zero => rw [hb']; exact testBit_two_mul_zero b
        | succ i => rw [hb', testBit_two_mul_succ]; exact hlow i (by omega)
      · have h2j : 2 ^ j ≤ b := Nat.testBit_implies_ge hbit
        rw [hland, hsub, hb', Nat.pow_succ]
        omega
      · intro i
        cases i with
        | zero =>
          rw [hland, testBit_two_mul_zero, hb', testBit_two_mul_zero]
          simp
        | succ i =>
          rw [hland, testBit_two_mul_succ, hb', testBit_two_mul_succ, hbits i]
          have : (decide (i = j)) = (decide (i + 1 = j + 1)) := by
            simp only [decide_eq_decide]; omega
          rw [this]
    · -- a = 2 * b + 1 : the lowest set bit is bit 0
      have hpred : a - 1 = 2 * b := by omega
      have hland : a &&& (a - 1) = 2 * b := by
        apply Nat.eq_of_testBit_eq
        intro i
        cases i with
        | zero =>
          rw [Nat.testBit_and, hpred, hb, testBit_two_mul_add_one_zero, testBit_two_mul_zero]
          simp
        | succ i =>
          rw [Nat.testBit_and, hpred, hb, testBit_two_mul_add_one_succ, testBit_two_mul_succ]
          simp
      refine ⟨0, ?_, ?_, ?_, ?_, ?_⟩
      · apply Nat.eq_of_testBit_eq
        intro i
        cases i with
        | zero =>
          rw [Nat.testBit_xor, hland, hb, testBit_two_mul_add_one_zero, testBit_two_mul_zero]
          simp [Nat.testBit_two_pow]
        | succ i =>
          rw [Nat.testBit_xor, hland, hb, testBit_two_mul_add_one_succ, testBit_two_mul_succ]
          simp only [Bool.xor_self]
          rw [show (1 : Nat) = 2 ^ 0 by rfl, Nat.testBit_two_pow]
          simp
      · rw [hb]; exact testBit_two_mul_add_one_zero b
      · intro i hi; omega
      · rw [hland, Nat.pow_zero]; omega
      · intro i
        cases i with
        | zero =>
          rw [hland, testBit_two_mul_zero, hb, testBit_two_mul_add_one_zero]
          simp
        | succ i =>
          rw [hland, testBit_two_mul_succ, hb, testBit_two_mul_add_one_succ]
          simp

theorem popcount_eq_card {x k : Nat} (h : ∀ i, x.testBit i = true → i < k) :
    popcount x = ((Finset.range k).filter (fun i => x.testBit i = true)).card := by
  unfold popcount
  congr 1
  apply Finset.ext
  intro i
  simp only [Finset.mem_filter, Finset.mem_range]
  constructor
  · rintro ⟨-, hbit⟩; exact ⟨h i hbit, hbit⟩
  · rintro ⟨-, hbit⟩; exact ⟨testBit_index_lt hbit, hbit⟩

theorem popcount_zero : popcount 0 = 0 := by simp [popcount]

theorem popcount_two_pow (i : Nat) : popcount (2 ^ i) = 1 := by
  rw [popcount_eq_card (k := i + 1)]
  · have : (Finset.range (i + 1)).filter (fun j => (2 ^ i).testBit j = true) = {i} := by
      apply Finset.ext
      intro j
      simp only [Finset.mem_filter, Finset.mem_range, Finset.mem_singleton,
        Nat.testBit_two_pow, decide_eq_true_eq]
      omega
    rw [this, Finset.card_singleton]
  · intro j hj
    rw [Nat.testBit_two_pow, decide_eq_true_eq] at hj
    omega

theorem popcount_le_of_lt_two_pow {x k : Nat} (h : x < 2 ^ k) : popcount x ≤ k := by
  rw [popcount_eq_card (k := k)]
  · calc ((Finset.range k).filter _).card ≤ (Finset.range k).card := Finset.card_filter_le _ _
      _ = k := Finset.card_range k
  · intro i hbit
    by_contra hik
    have : x < 2 ^ i := lt_of_lt_of_le h (Nat.pow_le_pow_right (by norm_num) (by omega))
    rw [Nat.testBit_lt_two_pow this] at hbit
    exact Bool.false_ne_true hbit

theorem popcount_ne_zero {a : Nat} (h : a ≠ 0) : popcount a ≠ 0 := by
  obtain ⟨j, -, hbit, -, -, -⟩ := lowbit_spec h
  unfold popcount
  have hmem : j ∈ (Finset.range a).filter (fun i => a.testBit i = true) := by
    simp only [Finset.mem_filter, Finset.mem_range]
    exact ⟨testBit_index_lt hbit, hbit⟩
  exact Finset.card_ne_zero_of_mem hmem

theorem popcount_lor_two_pow {x i : Nat} (h : x.testBit i = false) :
    popcount (x ||| 2 ^ i) = popcount x + 1 := by
  have hx : ∀ j, x.testBit j = true → j < i + x + 1 := fun j hj => by
    have := testBit_index_lt hj; omega
  have hlor : ∀ j, (x ||| 2 ^ i).testBit j = true → j < i + x + 1 := by
    intro j hj
    rw [Nat.testBit_or, Bool.or_eq_true] at hj
    rcases hj with hj | hj
    · exact lt_of_lt_of_le (hx j hj) (le_refl _)
    · rw [Nat.testBit_two_pow, decide_eq_true_eq] at hj; omega
  rw [popcount_eq_card hlor, popcount_eq_card hx]
  have hset : (Finset.range (i + x + 1)).filter (fun j => (x ||| 2 ^ i).testBit j = true) =
      insert i ((Finset.range (i + x + 1)).filter (fun j => x.testBit j = true)) := by
    apply Finset.ext
    intro j
    simp only [Finset.mem_filter, Finset.mem_range, Finset.mem_insert, Nat.testBit_or,
      Bool.or_eq_true, Nat.testBit_two_pow, decide_eq_true_eq]
    constructor
    · rintro ⟨hjk, hj | hj⟩
      · exact Or.inr ⟨hjk, hj⟩
      · exact Or.inl hj.symm
    · rintro (rfl | ⟨hjk, hj⟩)
      · exact ⟨by omega, Or.inr rfl⟩
      · exact ⟨hjk, Or.inl hj⟩
  rw [hset, Finset.card_insert_of_not_mem]
  simp only [Finset.mem_filter, Finset.mem_range, h]
  intro hcon
  exact Bool.false_ne_true hcon.2

theorem land_pred_decomp {a : Nat} (h : a ≠ 0) :
    ∃ j, a ^^^ (a &&& (a - 1)) = 2 ^ j ∧ (a &&& (a - 1)).testBit j = false ∧
      (a &&& (a - 1)) ||| 2 ^ j = a := by
  obtain ⟨j, hpow, hbit, hlow, hsub, hbits⟩ := lowbit_spec h
  refine ⟨j, hpow, ?_, ?_⟩
  · rw [hbits j]; simp
  · apply Nat.eq_of_testBit_eq
    intro i
    rw [Nat.testBit_or, hbits i, Nat.testBit_two_pow]
    by_cases hij : i = j
    · subst hij; simp [hbit]
    · simp [hij, Ne.symm hij]

theorem popcount_land_pred {a : Nat} (h : a ≠ 0) :
    popcount a = popcount (a &&& (a - 1)) + 1 := by
  obtain ⟨j, -, hbit, hlor⟩ := land_pred_decomp h
  conv_lhs => rw [← hlor]
  exact popcount_lor_two_pow hbit

/-- The sequence of single-bit values taken by the source loop
`while available_positions: position = available_positions & -available_positions;
available_positions -= position`, lowest set bit first. -/
def lowBits (a : Nat) : List Nat :=
  if h : a = 0 then []
  else (a ^^^ (a &&& (a - 1))) :: lowBits (a - (a ^^^ (a &&& (a - 1))))
termination_by a
decreasing_by
  obtain ⟨j, hpow, -, -, -, -⟩ := lowbit_spec h
  refine Nat.sub_lt (Nat.pos_of_ne_zero h) ?_
  rw [hpow]
  exact pow_pos (by norm_num) j

theorem lowBits_zero : lowBits 0 = [] := by rw [lowBits]; simp

theorem sub_lowbit {a : Nat} (h : a ≠ 0) :
    a - (a ^^^ (a &&& (a - 1))) = a &&& (a - 1) := by
  obtain ⟨j, hpow, -, -, hsub, -⟩ := lowbit_spec h
  rw [hpow, hsub]

theorem lowBits_cons {a : Nat} (h : a ≠ 0) :
    lowBits a = (a ^^^ (a &&& (a - 1))) :: lowBits (a &&& (a - 1)) := by
  rw [lowBits, dif_neg h, sub_lowbit h]

theorem land_pred_lt {a : Nat} (h : a ≠ 0) : a &&& (a - 1) < a := by
  obtain ⟨j, hpow, hbit, -, hsub, -⟩ := lowbit_spec h
  rw [hsub]
  exact Nat.sub_lt (Nat.pos_of_ne_zero h) (pow_pos (by norm_num) j)

theorem mem_lowBits {a p : Nat} (h : p ∈ lowBits a) :
    ∃ i, p = 2 ^ i ∧ a.testBit i = true := by
  induction a using Nat.strong_induction_on with
  | _ a ih =>
    by_cases ha : a = 0
    · subst ha; rw [lowBits_zero] at h; cases h
    · rw [lowBits_cons ha, List.mem_cons] at h
      rcases h with rfl | h
      · obtain ⟨j, hpow, hbit, -, -, -⟩ := lowbit_spec ha
        exact ⟨j, hpow, hbit⟩
      · obtain ⟨i, rfl, hbit⟩ := ih _ (land_pred_lt ha) h
        refine ⟨i, rfl, ?_⟩
        rw [Nat.testBit_and, Bool.and_eq_true] at hbit
        exact hbit.1

theorem lowBits_map_sum (f : Nat → Nat) {a k : Nat}
    (h : ∀ i, a.testBit i = true → i < k) :
    ((lowBits a).map f).sum =
      ∑ i ∈ (Finset.range k).filter (fun i => a.testBit i = true), f (2 ^ i) := by
  induction a using Nat.strong_induction_on with
  | _ a ih =>
    by_cases ha : a = 0
    · subst ha
      rw [lowBits_zero]
      simp [Nat.zero_testBit]
    · obtain ⟨j, hpow, hbit, hlow, hsub, hbits⟩ := lowbit_spec ha
      have hbits' : ∀ i, (a &&& (a - 1)).testBit i = true → i < k := by
        intro i hi
        rw [hbits i, Bool.and_eq_true] at hi
        exact h i hi.1
      rw [lowBits_cons ha, List.map_cons, List.sum_cons, ih _ (land_pred_lt ha) hbits', hpow]
      have hset : (Finset.range k).filter (fun i => a.testBit i = true) =
          insert j ((Finset.range k).filter (fun i => (a &&& (a - 1)).testBit i = true)) := by
        apply Finset.ext
        intro i
        simp only [Finset.mem_filter, Finset.mem_range, Finset.mem_insert]
        constructor
        · rintro ⟨hik, hi⟩
          by_cases hij : i = j
          · exact Or.inl hij
          · refine Or.inr ⟨hik, ?_⟩
            rw [hbits i, hi]
            simp [hij]
        · rintro (rfl | ⟨hik, hi⟩)
          · exact ⟨h i hbit, hbit⟩
          · rw [hbits i, Bool.and_eq_true] at hi
            exact ⟨hik, hi.1⟩
      rw [hset, Finset.sum_insert]
      simp only [Finset.mem_filter, Finset.mem_range, hbits j]
      intro hcon
      simp at hcon

theorem lowBits_pairwise (a : Nat) : (lowBits a).Pairwise (· < ·) := by
  induction a using Nat.strong_induction_on with
  | _ a ih =>
    by_cases ha : a = 0
    · subst ha; rw [lowBits_zero]; exact List.Pairwise.nil
    · obtain ⟨j, hpow, hbit, hlow, hsub, hbits⟩ := lowbit_spec ha
      rw [lowBits_cons ha]
      refine List.Pairwise.cons ?_ (ih _ (land_pred_lt ha))
      intro q hq
      obtain ⟨i, rfl, hbit'⟩ := mem_lowBits hq
      rw [hbits i, Bool.and_eq_true, Bool.not_eq_eq_eq_not, Bool.not_true,
        decide_eq_false_iff_not] at hbit'
      have hij : j < i := by
        rcases Nat.lt_or_ge i j with hlt | hge
        · rw [hlow i hlt] at hbit'; exact absurd hbit'.1 (by simp)
        · omega
      rw [hpow]
      exact Nat.pow_lt_pow_right (by norm_num) hij

/-- The set of columns still safe for the current row, as computed by the
source: `available_positions = ~(cols | majors | minors) & ((1 << n) - 1)`.
For nonnegative operands this equals the masked complement below; the
bit-level meaning is fixed by `testBit_available_positions`. -/
def available_positions (n cols majors minors : Nat) : Nat :=
  ((1 <<< n) - 1) ^^^ ((cols ||| majors ||| minors) &&& ((1 <<< n) - 1))

theorem testBit_mask (n i : Nat) : ((1 <<< n) - 1).testBit i = decide (i < n) := by
  rw [Nat.one_shiftLeft, Nat.testBit_two_pow_sub_one]

theorem testBit_available_positions (n cols majors minors i : Nat) :
    (available_positions n cols majors minors).testBit i =
      (decide (i < n) && !((cols ||| majors ||| minors).testBit i)) := by
  unfold available_positions
  rw [Nat.testBit_xor, Nat.testBit_and, testBit_mask]
  by_cases hi : i < n
  · cases (cols ||| majors ||| minors).testBit i <;> simp [hi]
  · cases (cols ||| majors ||| minors).testBit i <;> simp [hi]

theorem available_positions_lt (n cols majors minors : Nat) :
    available_positions n cols majors minors < 2 ^ n := by
  apply Nat.lt_pow_two_of_testBit
  intro i hi
  rw [testBit_available_positions]
  simp [Nat.not_lt.mpr hi, show ¬i < n by omega]

theorem available_positions_spec {n cols majors minors i : Nat}
    (h : (available_positions n cols majors minors).testBit i = true) :
    i < n ∧ cols.testBit i = false ∧ majors.testBit i = false ∧ minors.testBit i = false := by
  rw [testBit_available_positions, Bool.and_eq_true, decide_eq_true_eq] at h
  obtain ⟨hin, hx⟩ := h
  have hor : (cols ||| majors ||| minors).testBit i = false := by
    revert hx; cases (cols ||| majors ||| minors).testBit i <;> simp
  rw [Nat.testBit_or, Nat.testBit_or] at hor
  simp only [Bool.or_eq_false_iff] at hor
  exact ⟨hin, hor.1.1, hor.1.2, hor.2⟩

theorem land_mask_lor_two_pow {c n i : Nat} (hi : i < n) :
    (c ||| 2 ^ i) &&& ((1 <<< n) - 1) = (c &&& ((1 <<< n) - 1)) ||| 2 ^ i := by
  apply Nat.eq_of_testBit_eq
  intro j
  rw [Nat.testBit_and, Nat.testBit_or, Nat.testBit_or, Nat.testBit_and, testBit_mask,
    Nat.testBit_two_pow]
  by_cases hij : i = j
  · subst hij
    simp [show i < n from hi]
  · simp [hij]

theorem lor_two_pow_gt {x i : Nat} (h : x.testBit i = false) : x < x ||| 2 ^ i := by
  have hle : x ≤ x ||| 2 ^ i := by
    have habs : x &&& (x ||| 2 ^ i) = x := by
      apply Nat.eq_of_testBit_eq
      intro j
      rw [Nat.testBit_and, Nat.testBit_or]
      cases x.testBit j <;> simp
    calc x = x &&& (x ||| 2 ^ i) := habs.symm
      _ ≤ x ||| 2 ^ i := Nat.and_le_right
  rcases Nat.lt_or_ge x (x ||| 2 ^ i) with hlt | hge
  · exact hlt
  · exfalso
    have : x = x ||| 2 ^ i := le_antisymm hle hge
    have hbit : (x ||| 2 ^ i).testBit i = true := by
      rw [Nat.testBit_or, Nat.testBit_two_pow]
      simp
    rw [← this, h] at hbit
    exact Bool.false_ne_true hbit

theorem masked_lor_two_pow_lt {c n i : Nat} (hi : i < n) :
    (c &&& ((1 <<< n) - 1)) ||| 2 ^ i < 2 ^ n := by
  apply Nat.lt_pow_two_of_testBit
  intro j hj
  rw [Nat.testBit_or, Nat.testBit_and, testBit_mask, Nat.testBit_two_pow]
  simp [show ¬j < n by omega, show i ≠ j by omega]

/-- The recursive backtracker of the source, translated verbatim: base
case `row == n` returns 1, otherwise the loop extracts each lowest set
bit of `available_positions` in turn and sums the recursive calls on
`cols | position`, `(majors | position) << 1`, `(minors | position) >> 1`. -/
def backtrack (n row cols majors minors : Nat) : Nat :=
  if row = n then 1
  else
    ((lowBits (available_positions n cols majors minors)).attach.map
      (fun position =>
        backtrack n (row + 1) (cols ||| position.val)
          ((majors ||| position.val) <<< 1) ((minors ||| position.val) >>> 1))).sum
termination_by 2 ^ n - (cols &&& (2 ^ n - 1))
decreasing_by
  obtain ⟨i, hp, hbit⟩ := mem_lowBits position.property
  obtain ⟨hin, hc, -, -⟩ := available_positions_spec hbit
  rw [hp]
  have hmask : (1 <<< n) - 1 = 2 ^ n - 1 := by rw [Nat.one_shiftLeft]
  have h1 : (cols ||| 2 ^ i) &&& (2 ^ n - 1) = (cols &&& (2 ^ n - 1)) ||| 2 ^ i := by
    rw [← hmask]; exact land_mask_lor_two_pow hin
  have h2 : (cols &&& (2 ^ n - 1)).testBit i = false := by
    rw [Nat.testBit_and, hc]; simp
  have h3 : cols &&& (2 ^ n - 1) < (cols &&& (2 ^ n - 1)) ||| 2 ^ i := lor_two_pow_gt h2
  have h4 : (cols &&& (2 ^ n - 1)) ||| 2 ^ i < 2 ^ n := by
    rw [← hmask]; exact masked_lor_two_pow_lt hin
  rw [h1]
  exact Nat.sub_lt_sub_left (by omega) h3

theorem backtrack_base {n row cols majors minors : Nat} (h : row = n) :
    backtrack n row cols majors minors = 1 := by
  rw [backtrack, if_pos h]

theorem backtrack_loop {n row cols majors minors : Nat} (h : row ≠ n) :
    backtrack n row cols majors minors =
      ((lowBits (available_positions n cols majors minors)).map
        (fun position => backtrack n (row + 1) (cols ||| position)
          ((majors ||| position) <<< 1) ((minors ||| position) >>> 1))).sum := by
  rw [backtrack, if_neg h,
    List.attach_map_val _ (fun position => backtrack n (row + 1) (cols ||| position)
      ((majors ||| position) <<< 1) ((minors ||| position) >>> 1))]

theorem backtrack_step_sum {n row cols majors minors : Nat} (h : row ≠ n) :
    backtrack n row cols majors minors =
      ∑ i ∈ (Finset.range n).filter
        (fun i => (available_positions n cols majors minors).testBit i = true),
        backtrack n (row + 1) (cols ||| 2 ^ i)
          ((majors ||| 2 ^ i) <<< 1) ((minors ||| 2 ^ i) >>> 1) := by
  rw [backtrack_loop h]
  exact lowBits_map_sum _ (fun i hi => (available_positions_spec hi).1)

/-- The worker of the source: `n, col = args; position = 1 << col;
return backtrack(n, 1, position, position << 1, position >> 1)`. The board
size handed to a worker by the program is always a nonnegative integer, so
the pair carries a `Nat`. -/
def worker (args : Nat × Nat) : Nat :=
  backtrack args.1 1 (1 <<< args.2) ((1 <<< args.2) <<< 1) ((1 <<< args.2) >>> 1)

/-- The ordered list of per-column partial results,
`results = pool.map(worker, args)` with
`args = [(n, col) for col in range(n // 2)]`; `Pool.map` preserves input
order, so it is a `List.map` over `range (n / 2)`. -/
def results (n : Nat) : List Nat :=
  (List.range (n / 2)).map (fun col => worker (n, col))

/-- Top-level counter of `Genetic.py`. Python board sizes may be negative,
so the argument is an `Int`: `n // 2` is `Int.fdiv`, `n % 2` is `Int.emod`
(both floor-convention, as in Python), `range(half)` is empty when
`half ≤ 0` (hence `toNat`), and `1 << central_col` raises `ValueError` on a
negative shift count, modelled as `none`. -/
def count_solutions (n : Int) : Option Nat :=
  let half : Int := Int.fdiv n 2
  let results : List Nat := (List.range half.toNat).map (fun col => worker (n.toNat, col))
  let total_solutions : Nat := results.sum * 2
  if Int.emod n 2 ≠ 0 then
    let central_col : Int := Int.fdiv n 2
    if central_col < 0 then none
    else
      let central_position : Nat := 1 <<< central_col.toNat
      some (total_solutions +
        backtrack n.toNat 1 central_position (central_position <<< 1) (central_position >>> 1))
  else some total_solutions

/-- Top-level counter of `DFS.py`; apart from naming the worker-pool size
it performs the same computation as `count_solutions` of `Genetic.py`. -/
def count_n_queens_parallel (n : Int) : Option Nat :=
  let half : Int := Int.fdiv n 2
  let results : List Nat := (List.range half.toNat).map (fun col => worker (n.toNat, col))
  let total_solutions : Nat := results.sum * 2
  if Int.emod n 2 ≠ 0 then
    let central_col : Int := Int.fdiv n 2
    if central_col < 0 then none
    else
      let central_position : Nat := 1 <<< central_col.toNat
      some (total_solutions +
        backtrack n.toNat 1 central_position (central_position <<< 1) (central_position >>> 1))
  else some total_solutions

theorem count_n_queens_parallel_eq : count_n_queens_parallel = count_solutions := rfl

theorem count_solutions_ofNat (k : Nat) :
    count_solutions (k : Int) = some ((results k).sum * 2 +
      if k % 2 = 1 then
        backtrack k 1 (1 <<< (k / 2)) ((1 <<< (k / 2)) <<< 1) ((1 <<< (k / 2)) >>> 1)
      else 0) := by
  unfold count_solutions
  have hfd : Int.fdiv (k : Int) 2 = ((k / 2 : Nat) : Int) := (Int.ofNat_fdiv k 2).symm
  rw [hfd]
  simp only [Int.toNat_ofNat]
  by_cases hk : k % 2 = 1
  · have hodd : Int.emod (k : Int) 2 ≠ 0 := by
      rw [show Int.emod (k : Int) 2 = ((k % 2 : Nat) : Int) from rfl, hk]
      norm_num
    rw [if_pos hodd, if_neg (by omega), if_pos hk]
    rfl
  · have heven : ¬Int.emod (k : Int) 2 ≠ 0 := by
      rw [show Int.emod (k : Int) 2 = ((k % 2 : Nat) : Int) from rfl]
      have : k % 2 = 0 := by omega
      rw [this]
      norm_num
    rw [if_neg heven, if_neg hk]
    simp [results, worker]

theorem count_solutions_neg {n : Int} (h : n < 0) :
    (Int.fdiv n 2).toNat = 0 ∧
      (Int.emod n 2 = 0 → count_solutions n = some 0) ∧
      (Int.emod n 2 ≠ 0 → count_solutions n = none) := by
  have hfd : Int.fdiv n 2 = n / 2 := Int.fdiv_eq_ediv n (by norm_num)
  have hlt : Int.fdiv n 2 < 0 := by rw [hfd]; omega
  refine ⟨Int.toNat_of_nonpos (by omega), ?_, ?_⟩
  · intro hev
    unfold count_solutions
    rw [if_neg (by simp [hev]), Int.toNat_of_nonpos (le_of_lt hlt)]
    simp
  · intro hodd
    unfold count_solutions
    rw [if_pos hodd, if_pos hlt]

/-- Fuel-indexed recursor-level restatement of the bit-extraction loop of
`backtrack`, used to evaluate the search inside the kernel: `g` evaluates
the next row, `fl` bounds the number of iterations and `a` is the
remaining `available_positions`.  It is written with bare `Nat` primitives
so that kernel reduction stays on the fast arithmetic path; for
`a = ap + 1` the extracted bit `(ap + 1) ^^^ ((ap + 1) &&& ap)` is exactly
`a ^^^ (a &&& (a - 1))`, the head of `lowBits a`. -/
def btLoopRun (g : Nat → Nat → Nat → Nat) (c m mi : Nat) : Nat → Nat → Nat :=
  Nat.rec (motive := fun _ => Nat → Nat)
    (fun _ => 0)
    (fun _ ihl a =>
      Nat.rec (motive := fun _ => Nat) 0
        (fun ap _ =>
          Nat.add
            (g (Nat.lor c (Nat.xor (Nat.succ ap) (Nat.land (Nat.succ ap) ap)))
              (Nat.shiftLeft (Nat.lor m (Nat.xor (Nat.succ ap) (Nat.land (Nat.succ ap) ap))) 1)
              (Nat.shiftRight (Nat.lor mi (Nat.xor (Nat.succ ap) (Nat.land (Nat.succ ap) ap))) 1))
            (ihl (Nat.sub (Nat.succ ap) (Nat.xor (Nat.succ ap) (Nat.land (Nat.succ ap) ap)))))
        a)

/-- Fuel-indexed evaluator for `backtrack`; the fuel is the number of rows
still to be filled, so `btRun n mask (n - row) = backtrack n row` (proved
below as `btRun_eq_backtrack`). -/
def btRun (n mask : Nat) : Nat → Nat → Nat → Nat → Nat :=
  Nat.rec (motive := fun _ => Nat → Nat → Nat → Nat)
    (fun _ _ _ => 1)
    (fun _ ih c m mi =>
      btLoopRun ih c m mi n (Nat.xor mask (Nat.land (Nat.lor (Nat.lor c m) mi) mask)))

theorem btLoopRun_zero (g : Nat → Nat → Nat → Nat) (c m mi a : Nat) :
    btLoopRun g c m mi 0 a = 0 := rfl

theorem btLoopRun_succ_zero (g : Nat → Nat → Nat → Nat) (c m mi fl : Nat) :
    btLoopRun g c m mi (fl + 1) 0 = 0 := rfl

theorem btLoopRun_succ_succ (g : Nat → Nat → Nat → Nat) (c m mi fl ap : Nat) :
    btLoopRun g c m mi (fl + 1) (ap + 1) =
      g (c ||| ((ap + 1) ^^^ ((ap + 1) &&& ap)))
        ((m ||| ((ap + 1) ^^^ ((ap + 1) &&& ap))) <<< 1)
        ((mi ||| ((ap + 1) ^^^ ((ap + 1) &&& ap))) >>> 1) +
      btLoopRun g c m mi fl ((ap + 1) - ((ap + 1) ^^^ ((ap + 1) &&& ap))) := rfl

theorem btRun_zero (n mask c m mi : Nat) : btRun n mask 0 c m mi = 1 := rfl

theorem btRun_succ (n mask fuel c m mi : Nat) :
    btRun n mask (fuel + 1) c m mi =
      btLoopRun (btRun n mask fuel) c m mi n (mask ^^^ ((c ||| m ||| mi) &&& mask)) := rfl

theorem btLoopRun_eq (g : Nat → Nat → Nat → Nat) (c m mi : Nat) :
    ∀ fl a, popcount a ≤ fl →
      btLoopRun g c m mi fl a =
        ((lowBits a).map (fun p => g (c ||| p) ((m ||| p) <<< 1) ((mi ||| p) >>> 1))).sum := by
  intro fl
  induction fl with
  | zero =>
    intro a ha
    have ha0 : a = 0 := by
      by_contra h0
      exact popcount_ne_zero h0 (Nat.le_zero.mp ha)
    subst ha0
    rw [lowBits_zero, btLoopRun_zero]
    rfl
  | succ fl ih =>
    intro a ha
    cases a with
    | zero =>
      rw [lowBits_zero, btLoopRun_succ_zero]
      rfl
    | succ ap =>
      have hne : ap + 1 ≠ 0 := Nat.succ_ne_zero ap
      rw [btLoopRun_succ_succ, lowBits_cons hne]
      simp only [Nat.add_sub_cancel]
      rw [List.map_cons, List.sum_cons]
      congr 1
      have hsl : (ap + 1) - ((ap + 1) ^^^ ((ap + 1) &&& ap)) = (ap + 1) &&& ap := by
        have := sub_lowbit hne
        simpa using this
      rw [hsl]
      apply ih
      have hpc := popcount_land_pred hne
      simp only [Nat.add_sub_cancel] at hpc
      omega

theorem btRun_eq_backtrack (n : Nat) :
    ∀ fuel row cols majors minors, row ≤ n → fuel = n - row →
      btRun n ((1 <<< n) - 1) fuel cols majors minors = backtrack n row cols majors minors := by
  intro fuel
  induction fuel with
  | zero =>
    intro row c m mi hrow hfuel
    have hr : row = n := by omega
    rw [btRun_zero, backtrack_base hr]
  | succ fuel ih =>
    intro row c m mi hrow hfuel
    have hne : row ≠ n := by omega
    rw [btRun_succ, backtrack_loop hne]
    have hav : ((1 <<< n) - 1) ^^^ ((c ||| m ||| mi) &&& ((1 <<< n) - 1)) =
        available_positions n c m mi := rfl
    rw [hav, btLoopRun_eq _ _ _ _ _ _
      (popcount_le_of_lt_two_pow (available_positions_lt n c m mi))]
    apply congrArg List.sum
    apply List.map_congr_left
    intro p hp
    exact ih (row + 1) _ _ _ (by omega) (by omega)

/-- Kernel-evaluable form of `worker`. -/
def workerRun (n col : Nat) : Nat :=
  btRun n ((1 <<< n) - 1) (n - 1) (1 <<< col) ((1 <<< col) <<< 1) ((1 <<< col) >>> 1)

theorem worker_eq_workerRun {n : Nat} (col : Nat) (h : 1 ≤ n) :
    worker (n, col) = workerRun n col :=
  (btRun_eq_backtrack n (n - 1) 1 _ _ _ (by omega) (by omega)).symm

/-- Kernel-evaluable form of the value returned by `count_solutions` on a
nonnegative board size. -/
def countRun (k : Nat) : Nat :=
  ((List.range (k / 2)).map (fun col => workerRun k col)).sum * 2 +
    if k % 2 = 1 then workerRun k (k / 2) else 0

theorem count_solutions_eq_countRun (k : Nat) :
    count_solutions (k : Int) = some (countRun k) := by
  rw [count_solutions_ofNat]
  unfold countRun results
  congr 1
  congr 1
  · apply congrArg (fun t => t * 2)
    apply congrArg List.sum
    apply List.map_congr_left
    intro col hcol
    rw [List.mem_range] at hcol
    exact worker_eq_workerRun col (by omega)
  · by_cases hk : k % 2 = 1
    · rw [if_pos hk, if_pos hk]
      exact (btRun_eq_backtrack k (k - 1) 1 _ _ _ (by omega) (by omega)).symm
    · rw [if_neg hk, if_neg hk]

/-- Reversal of the low `n` bits: bit `i` of `reflect n x` is bit
`n - 1 - i` of `x` for `i < n`, and bits at positions `≥ n` are dropped.
This is the board's left-right mirror on column masks. -/
def reflect : Nat → Nat → Nat
  | 0, _ => 0
  | n + 1, x => reflect n (x >>> 1) ||| ((x &&& 1) <<< n)

theorem testBit_reflect : ∀ n x i, (reflect n x).testBit i = (decide (i < n) && x.testBit (n - 1 - i))
  | 0, x, i => by simp [reflect]
  | n + 1, x, i => by
    rw [reflect, Nat.testBit_or, testBit_reflect n (x >>> 1) i, Nat.testBit_shiftLeft,
      Nat.testBit_shiftRight]
    have h1 : (x &&& 1).testBit (i - n) = (x.testBit (i - n) && decide (0 = i - n)) := by
      rw [Nat.testBit_and, show (1 : Nat) = 2 ^ 0 by rfl, Nat.testBit_two_pow]
    rw [h1]
    rcases Nat.lt_trichotomy i n with hlt | heq | hgt
    · have e1 : 1 + (n - 1 - i) = n + 1 - 1 - i := by omega
      simp [hlt, show i < n + 1 by omega, show ¬n ≤ i by omega, e1]
    · subst heq
      simp [show ¬i < i by omega, show i < i + 1 by omega, Nat.sub_self,
        show i + 1 - 1 - i = 0 by omega]
    · simp [show ¬i < n by omega, show ¬i < n + 1 by omega, show ¬(0 = i - n) by omega]

theorem reflect_lt (n x : Nat) : reflect n x < 2 ^ n := by
  apply Nat.lt_pow_two_of_testBit
  intro i hi
  rw [testBit_reflect]
  simp [show ¬i < n by omega]

theorem reflect_lor (n x y : Nat) : reflect n (x ||| y) = reflect n x ||| reflect n y := by
  apply Nat.eq_of_testBit_eq
  intro i
  rw [Nat.testBit_or, testBit_reflect, testBit_reflect, testBit_reflect, Nat.testBit_or]
  cases decide (i < n) <;> simp

theorem reflect_two_pow {n i : Nat} (h : i < n) : reflect n (2 ^ i) = 2 ^ (n - 1 - i) := by
  apply Nat.eq_of_testBit_eq
  intro j
  rw [testBit_reflect, Nat.testBit_two_pow, Nat.testBit_two_pow]
  by_cases hj : j < n
  · have hiff : (i = n - 1 - j) ↔ (n - 1 - i = j) := by omega
    simp [hj, hiff]
  · simp [hj, show n - 1 - i ≠ j by omega]

theorem reflect_reflect {n x : Nat} (h : x < 2 ^ n) : reflect n (reflect n x) = x := by
  apply Nat.eq_of_testBit_eq
  intro i
  rw [testBit_reflect, testBit_reflect]
  by_cases hi : i < n
  · simp [hi, show n - 1 - i < n by omega, show n - 1 - (n - 1 - i) = i by omega]
  · have hx : x.testBit i = false := by
      have : x < 2 ^ i := lt_of_lt_of_le h (Nat.pow_le_pow_right (by norm_num) (by omega))
      exact Nat.testBit_lt_two_pow this
    simp [hi, hx]

theorem avail_majors_masked (n cols majors minors : Nat) :
    available_positions n cols (majors &&& ((1 <<< n) - 1)) minors =
      available_positions n cols majors minors := by
  apply Nat.eq_of_testBit_eq
  intro i
  rw [testBit_available_positions, testBit_available_positions, Nat.testBit_or, Nat.testBit_or,
    Nat.testBit_or, Nat.testBit_or, Nat.testBit_and, testBit_mask]
  by_cases hi : i < n
  · simp [hi]
  · simp [hi]

theorem shift_masked_lor (n m p : Nat) :
    (((m &&& ((1 <<< n) - 1)) ||| p) <<< 1) &&& ((1 <<< n) - 1) =
      ((m ||| p) <<< 1) &&& ((1 <<< n) - 1) := by
  apply Nat.eq_of_testBit_eq
  intro i
  rw [Nat.testBit_and, Nat.testBit_and, testBit_mask, Nat.testBit_shiftLeft,
    Nat.testBit_shiftLeft, Nat.testBit_or, Nat.testBit_or, Nat.testBit_and, testBit_mask]
  by_cases hi : i < n
  · by_cases h1 : 1 ≤ i
    · simp [hi, h1, ge_iff_le, show i - 1 < n by omega]
    · simp [hi, show ¬i ≥ 1 by omega]
  · simp [hi]

theorem backtrack_majors_masked (n : Nat) :
    ∀ d row cols majors minors, n - row = d → row ≤ n →
      backtrack n row cols (majors &&& ((1 <<< n) - 1)) minors =
        backtrack n row cols majors minors := by
  intro d
  induction d with
  | zero =>
    intro row c m mi hd hrow
    have hr : row = n := by omega
    rw [backtrack_base hr, backtrack_base hr]
  | succ d ih =>
    intro row c m mi hd hrow
    have hne : row ≠ n := by omega
    rw [backtrack_step_sum hne, backtrack_step_sum hne, avail_majors_masked]
    apply Finset.sum_congr rfl
    intro i hi
    have h1 : backtrack n (row + 1) (c ||| 2 ^ i) (((m &&& ((1 <<< n) - 1)) ||| 2 ^ i) <<< 1)
        ((mi ||| 2 ^ i) >>> 1) =
        backtrack n (row + 1) (c ||| 2 ^ i)
          ((((m &&& ((1 <<< n) - 1)) ||| 2 ^ i) <<< 1) &&& ((1 <<< n) - 1))
          ((mi ||| 2 ^ i) >>> 1) := (ih (row + 1) _ _ _ (by omega) (by omega)).symm
    have h2 : backtrack n (row + 1) (c ||| 2 ^ i) ((m ||| 2 ^ i) <<< 1)
        ((mi ||| 2 ^ i) >>> 1) =
        backtrack n (row + 1) (c ||| 2 ^ i)
          (((m ||| 2 ^ i) <<< 1) &&& ((1 <<< n) - 1))
          ((mi ||| 2 ^ i) >>> 1) := (ih (row + 1) _ _ _ (by omega) (by omega)).symm
    rw [h1, h2, shift_masked_lor]

theorem two_pow_land_mask {n i : Nat} (h : i < n) :
    2 ^ i &&& ((1 <<< n) - 1) = 2 ^ i := by
  apply Nat.eq_of_testBit_eq
  intro j
  rw [Nat.testBit_and, testBit_mask, Nat.testBit_two_pow]
  by_cases hj : i = j
  · simp [hj, show j < n by omega]
  · simp [hj]

theorem land_mask_lor_distrib (n m p : Nat) :
    (m ||| p) &&& ((1 <<< n) - 1) =
      (m &&& ((1 <<< n) - 1)) ||| (p &&& ((1 <<< n) - 1)) := by
  apply Nat.eq_of_testBit_eq
  intro j
  rw [Nat.testBit_and, Nat.testBit_or, Nat.testBit_or, Nat.testBit_and, Nat.testBit_and]
  cases ((1 <<< n) - 1).testBit j <;> simp

theorem lor_lt_two_pow {n x y : Nat} (hx : x < 2 ^ n) (hy : y < 2 ^ n) :
    x ||| y < 2 ^ n := by
  apply Nat.lt_pow_two_of_testBit
  intro i hi
  have hxi : x < 2 ^ i := lt_of_lt_of_le hx (Nat.pow_le_pow_right (by norm_num) hi)
  have hyi : y < 2 ^ i := lt_of_lt_of_le hy (Nat.pow_le_pow_right (by norm_num) hi)
  rw [Nat.testBit_or, Nat.testBit_lt_two_pow hxi, Nat.testBit_lt_two_pow hyi]
  rfl

theorem two_pow_lt_two_pow {n i : Nat} (h : i < n) : 2 ^ i < 2 ^ n :=
  Nat.pow_lt_pow_right (by norm_num) h

theorem shiftRight_one_lt_two_pow {n y : Nat} (hy : y < 2 ^ n) : y >>> 1 < 2 ^ n := by
  apply Nat.lt_pow_two_of_testBit
  intro i hi
  rw [Nat.testBit_shiftRight]
  apply Nat.testBit_lt_two_pow
  exact lt_of_lt_of_le hy (Nat.pow_le_pow_right (by norm_num) (by omega))

theorem reflect_shiftRight {n y : Nat} (hy : y < 2 ^ n) :
    reflect n (y >>> 1) = ((reflect n y) <<< 1) &&& ((1 <<< n) - 1) := by
  apply Nat.eq_of_testBit_eq
  intro j
  rw [testBit_reflect, Nat.testBit_shiftRight, Nat.testBit_and, testBit_mask,
    Nat.testBit_shiftLeft, testBit_reflect]
  by_cases hj : j < n
  · by_cases h1 : 1 ≤ j
    · simp only [hj, decide_eq_true_eq, Bool.true_and, ge_iff_le, h1, decide_True]
      have e1 : 1 + (n - 1 - j) = n - 1 - (j - 1) := by omega
      simp [e1, hj, show j - 1 < n by omega]
    · have hj0 : j = 0 := by omega
      subst hj0
      have hyn : y.testBit n = false := Nat.testBit_lt_two_pow hy
      simp [hj, show 1 + (n - 1 - 0) = n by omega, show 1 + (n - 1) = n by omega, hyn]
  · simp [hj]

theorem reflect_shiftLeft (n z : Nat) :
    reflect n ((z <<< 1) &&& ((1 <<< n) - 1)) =
      (reflect n (z &&& ((1 <<< n) - 1))) >>> 1 := by
  apply Nat.eq_of_testBit_eq
  intro j
  rw [testBit_reflect, Nat.testBit_and, testBit_mask, Nat.testBit_shiftLeft,
    Nat.testBit_shiftRight, testBit_reflect, Nat.testBit_and, testBit_mask]
  by_cases hj : j + 1 < n
  · have d1 : j < n := by omega
    have d2 : (1 : Nat) ≤ n - 1 - j := by omega
    have d3 : n - 1 - j < n := by omega
    have d4 : n - 1 - j - 1 = n - 2 - j := by omega
    have d5 : n - 1 - (1 + j) = n - 2 - j := by omega
    have d6 : n - 2 - j < n := by omega
    simp [d1, hj, show 1 + j < n by omega, d2, d3, d4, d5, d6, ge_iff_le]
  · by_cases hjn : j < n
    · simp [hjn, show n - 1 - j = 0 by omega, show ¬(1 : Nat) ≤ 0 by omega,
        show ¬1 + j < n by omega]
    · simp [hjn, show ¬1 + j < n by omega]

theorem avail_reflect (n c m mi : Nat) :
    available_positions n (reflect n c) (reflect n mi)
      (reflect n (m &&& ((1 <<< n) - 1))) =
      reflect n (available_positions n c m mi) := by
  apply Nat.eq_of_testBit_eq
  intro j
  rw [testBit_available_positions, testBit_reflect, testBit_available_positions,
    Nat.testBit_or, Nat.testBit_or, testBit_reflect, testBit_reflect, testBit_reflect,
    Nat.testBit_and, testBit_mask, Nat.testBit_or, Nat.testBit_or]
  by_cases hj : j < n
  · have h2 : n - 1 - j < n := by omega
    simp only [hj, h2, decide_True, Bool.true_and]
    cases c.testBit (n - 1 - j) <;> cases m.testBit (n - 1 - j) <;>
      cases mi.testBit (n - 1 - j) <;> simp
  · simp [hj]

theorem backtrack_mirror (n : Nat) :
    ∀ d row cols majors minors, n - row = d → row ≤ n → cols < 2 ^ n → minors < 2 ^ n →
      backtrack n row cols majors minors =
        backtrack n row (reflect n cols) (reflect n minors)
          (reflect n (majors &&& ((1 <<< n) - 1))) := by
  intro d
  induction d with
  | zero =>
    intro row c m mi hd hrow hc hmi
    have hr : row = n := by omega
    rw [backtrack_base hr, backtrack_base hr]
  | succ d ih =>
    intro row c m mi hd hrow hc hmi
    have hne : row ≠ n := by omega
    rw [backtrack_step_sum hne, backtrack_step_sum hne, avail_reflect]
    apply Finset.sum_nbij' (fun i => n - 1 - i) (fun i => n - 1 - i)
    · intro i hi
      rw [Finset.mem_filter, Finset.mem_range] at hi ⊢
      obtain ⟨hin, hbit⟩ := hi
      refine ⟨by omega, ?_⟩
      rw [testBit_reflect]
      simp [show n - 1 - i < n by omega, show n - 1 - (n - 1 - i) = i by omega, hbit]
    · intro i hi
      rw [Finset.mem_filter, Finset.mem_range] at hi ⊢
      obtain ⟨hin, hbit⟩ := hi
      rw [testBit_reflect] at hbit
      refine ⟨by omega, ?_⟩
      revert hbit
      simp [show i < n from hin]
    · intro i hi
      rw [Finset.mem_filter, Finset.mem_range] at hi
      omega
    · intro i hi
      rw [Finset.mem_filter, Finset.mem_range] at hi
      omega
    · intro i hi
      rw [Finset.mem_filter, Finset.mem_range] at hi
      obtain ⟨hin, hbit⟩ := hi
      have hc2 : c ||| 2 ^ i < 2 ^ n := lor_lt_two_pow hc (two_pow_lt_two_pow hin)
      have hmi2 : (mi ||| 2 ^ i) >>> 1 < 2 ^ n :=
        shiftRight_one_lt_two_pow (lor_lt_two_pow hmi (two_pow_lt_two_pow hin))
      have e1 : reflect n (c ||| 2 ^ i) = reflect n c ||| 2 ^ (n - 1 - i) := by
        rw [reflect_lor, reflect_two_pow hin]
      have e2 : reflect n ((mi ||| 2 ^ i) >>> 1) =
          ((reflect n mi ||| 2 ^ (n - 1 - i)) <<< 1) &&& ((1 <<< n) - 1) := by
        rw [reflect_shiftRight (lor_lt_two_pow hmi (two_pow_lt_two_pow hin)), reflect_lor,
          reflect_two_pow hin]
      have e3 : reflect n (((m ||| 2 ^ i) <<< 1) &&& ((1 <<< n) - 1)) =
          ((reflect n (m &&& ((1 <<< n) - 1))) ||| 2 ^ (n - 1 - i)) >>> 1 := by
        rw [reflect_shiftLeft, land_mask_lor_distrib, two_pow_land_mask hin, reflect_lor,
          reflect_two_pow hin]
      rw [ih (row + 1) _ _ _ (by omega) (by omega) hc2 hmi2, e1, e2, e3]
      exact backtrack_majors_masked n (n - (row + 1)) (row + 1) _ _ _ rfl (by omega)

theorem worker_mirror {n col : Nat} (h : col < n) :
    worker (n, col) = worker (n, n - 1 - col) := by
  have hn : 1 ≤ n := by omega
  have hclt : 2 ^ col < 2 ^ n := two_pow_lt_two_pow h
  have hmilt : 2 ^ col >>> 1 < 2 ^ n := shiftRight_one_lt_two_pow hclt
  have hw : ∀ c : Nat, worker (n, c) =
      backtrack n 1 (2 ^ c) (2 ^ c <<< 1) (2 ^ c >>> 1) := by
    intro c
    unfold worker
    rw [Nat.one_shiftLeft]
  rw [hw col, hw (n - 1 - col)]
  rw [backtrack_mirror n (n - 1) 1 _ _ _ rfl hn hclt hmilt]
  rw [reflect_shiftRight hclt, reflect_shiftLeft, two_pow_land_mask h, reflect_two_pow h]
  exact backtrack_majors_masked n (n - 1) 1 _ _ _ rfl hn

theorem sum_upper_mirror {n a : Nat} (ha : a ≤ n) :
    ∑ col ∈ Finset.Ico a n, worker (n, col) =
      ∑ col ∈ Finset.range (n - a), worker (n, col) := by
  apply Finset.sum_nbij' (fun col => n - 1 - col) (fun col => n - 1 - col)
  · intro col hcol
    rw [Finset.mem_Ico] at hcol
    rw [Finset.mem_range]
    omega
  · intro col hcol
    rw [Finset.mem_range] at hcol
    rw [Finset.mem_Ico]
    omega
  · intro col hcol
    rw [Finset.mem_Ico] at hcol
    omega
  · intro col hcol
    rw [Finset.mem_range] at hcol
    omega
  · intro col hcol
    rw [Finset.mem_Ico] at hcol
    exact worker_mirror (by omega)

theorem half_double_eq_full {n : Nat} (h : 2 ≤ n) :
    (∑ col ∈ Finset.range (n / 2), worker (n, col)) * 2 +
      (if n % 2 = 1 then worker (n, n / 2) else 0) =
      ∑ col ∈ Finset.range n, worker (n, col) := by
  rw [Finset.range_eq_Ico, ← Finset.sum_Ico_consecutive _ (Nat.zero_le (n / 2))
    (by omega : n / 2 ≤ n)]
  by_cases hpar : n % 2 = 1
  · rw [← Finset.sum_Ico_consecutive _ (by omega : n / 2 ≤ n / 2 + 1) (by omega : n / 2 + 1 ≤ n)]
    rw [sum_upper_mirror (by omega : n / 2 + 1 ≤ n)]
    have hc : n - (n / 2 + 1) = n / 2 := by omega
    have hsingle : ∑ col ∈ Finset.Ico (n / 2) (n / 2 + 1), worker (n, col) =
        worker (n, n / 2) := by
      rw [Nat.Ico_succ_singleton, Finset.sum_singleton]
    rw [hc, hsingle, if_pos hpar, ← Finset.range_eq_Ico]
    ring
  · rw [sum_upper_mirror (by omega : n / 2 ≤ n)]
    have hc : n - n / 2 = n / 2 := by omega
    rw [hc, if_neg hpar, ← Finset.range_eq_Ico]
    ring

/-- A snapshot of the backtracker's arguments at one recursion level. -/
structure SearchState where
  row : Nat
  cols : Nat
  majors : Nat
  minors : Nat

/-- One recursive call of `backtrack`: from a non-base state, extract one
of the loop's positions and update the three masks exactly as the source
does. -/
inductive Step (n : Nat) : SearchState → SearchState → Prop
  | place {row cols majors minors position : Nat} (hrow : row ≠ n)
      (hpos : position ∈ lowBits (available_positions n cols majors minors)) :
      Step n ⟨row, cols, majors, minors⟩
        ⟨row + 1, cols ||| position, (majors ||| position) <<< 1,
          (minors ||| position) >>> 1⟩

/-- Reachability along recursive calls of `backtrack`. -/
def Reach (n : Nat) : SearchState → SearchState → Prop :=
  Relation.ReflTransGen (Step n)

theorem reach_invariant {n : Nat} {P : SearchState → Prop}
    (hstep : ∀ s s', P s → Step n s s' → P s') :
    ∀ {s s'}, Reach n s s' → P s → P s' := by
  intro s s' h hP
  induction h with
  | refl => exact hP
  | tail hr hstep' ih => exact hstep _ _ ih hstep'

theorem step_row {n : Nat} {s s' : SearchState} (h : Step n s s') :
    s'.row = s.row + 1 := by
  cases h with
  | place hrow hpos => rfl

theorem step_fresh_bit {n : Nat} {s s' : SearchState} (h : Step n s s') :
    ∃ p, p ≠ 0 ∧ s.cols &&& p = 0 ∧ s'.cols = s.cols ||| p ∧
      popcount s'.cols = popcount s.cols + 1 := by
  cases h with
  | place hrow hpos =>
    obtain ⟨i, rfl, hbit⟩ := mem_lowBits hpos
    obtain ⟨hin, hc, -, -⟩ := available_positions_spec hbit
    refine ⟨2 ^ i, (pow_pos (by norm_num : (0 : Nat) < 2) i).ne', ?_, rfl, ?_⟩
    · apply Nat.eq_of_testBit_eq
      intro j
      rw [Nat.testBit_and, Nat.testBit_two_pow, Nat.zero_testBit]
      by_cases hij : i = j
      · subst hij; simp [hc]
      · simp [hij]
    · exact popcount_lor_two_pow hc

theorem list_range_map_sum (f : Nat → Nat) (k : Nat) :
    ((List.range k).map f).sum = ∑ i ∈ Finset.range k, f i := by
  induction k with
  | zero => rfl
  | succ k ih =>
    rw [List.range_succ, List.map_append, List.sum_append, Finset.sum_range_succ, ih]
    simp

/-- The refinement target of the symmetry decomposition, written the way
the specification describes it: the naive full search that seeds the first
queen in every column `col ∈ [0, n)` and sums the sub-search counts. -/
def full_first_row_total (n : Nat) : Nat :=
  ∑ col ∈ Finset.range n, worker (n, col)

/-- Fuel-indexed recursor-level twin of `lowBits`, evaluable by kernel
reduction. -/
def lowBitsRun : Nat → Nat → List Nat :=
  Nat.rec (motive := fun _ => Nat → List Nat)
    (fun _ => [])
    (fun _ ih a =>
      Nat.rec (motive := fun _ => List Nat) []
        (fun ap _ => ((ap + 1) ^^^ ((ap + 1) &&& ap)) ::
          ih ((ap + 1) - ((ap + 1) ^^^ ((ap + 1) &&& ap)))) a)

theorem lowBitsRun_eq : ∀ fl a, popcount a ≤ fl → lowBitsRun fl a = lowBits a := by
  intro fl
  induction fl with
  | zero =>
    intro a ha
    have ha0 : a = 0 := by
      by_contra h0
      exact popcount_ne_zero h0 (Nat.le_zero.mp ha)
    subst ha0
    rw [lowBits_zero]
    rfl
  | succ fl ih =>
    intro a ha
    cases a with
    | zero => rw [lowBits_zero]; rfl
    | succ ap =>
      have hne : ap + 1 ≠ 0 := Nat.succ_ne_zero ap
      have hstep : lowBitsRun (fl + 1) (ap + 1) =
          ((ap + 1) ^^^ ((ap + 1) &&& ap)) ::
            lowBitsRun fl ((ap + 1) - ((ap + 1) ^^^ ((ap + 1) &&& ap))) := rfl
      rw [hstep, lowBits_cons hne]
      simp only [Nat.add_sub_cancel]
      congr 1
      have hsl : (ap + 1) - ((ap + 1) ^^^ ((ap + 1) &&& ap)) = (ap + 1) &&& ap := by
        have := sub_lowbit hne
        simpa using this
      rw [hsl]
      apply ih
      have hpc := popcount_land_pred hne
      simp only [Nat.add_sub_cancel] at hpc
      omega

/-- One-level expansion of the fuel-indexed evaluator: split a search node
into its per-position children so that each child's count can be certified
as a separate declaration. -/
theorem btRun_split (n fuel c m mi : Nat) :
    btRun n ((1 <<< n) - 1) (fuel + 1) c m mi =
      ((lowBitsRun n (available_positions n c m mi)).map
        (fun p => btRun n ((1 <<< n) - 1) fuel (c ||| p)
          ((m ||| p) <<< 1) ((mi ||| p) >>> 1))).sum := by
  rw [btRun_succ]
  have hav : (((1 <<< n) - 1) ^^^ ((c ||| m ||| mi) &&& ((1 <<< n) - 1))) =
      available_positions n c m mi := rfl
  have hpc : popcount (available_positions n c m mi) ≤ n :=
    popcount_le_of_lt_two_pow (available_positions_lt n c m mi)
  rw [hav, btLoopRun_eq _ _ _ _ _ _ hpc, lowBitsRun_eq n _ hpc]

/-! Symbolic expansion lemmas for assembling kernel-evaluated subtree counts.
Each is proved with all interesting arguments left as variables, so its own
kernel check is a cheap symbolic computation; instantiating them at literal
arguments never forces the kernel to re-evaluate a sub-search. -/

theorem workerRun_expand (n col : Nat) :
    workerRun n col = btRun n ((1 <<< n) - 1) (n - 1)
      (1 <<< col) ((1 <<< col) <<< 1) ((1 <<< col) >>> 1) := rfl

theorem range6_map_sum (f : Nat → Nat) :
    (List.map f (List.range 6)).sum =
      f 0 + (f 1 + (f 2 + (f 3 + (f 4 + (f 5 + 0))))) := rfl

theorem range7_map_sum (f : Nat → Nat) :
    (List.map f (List.range 7)).sum =
      f 0 + (f 1 + (f 2 + (f 3 + (f 4 + (f 5 + (f 6 + 0)))))) := rfl

theorem countRun_expand_even6 (k : Nat) (hk : k / 2 = 6) (he : ¬ (k % 2 = 1)) :
    countRun k =
      (workerRun k 0 + (workerRun k 1 + (workerRun k 2 + (workerRun k 3 + (workerRun k 4 + (workerRun k 5 + 0)))))) * 2 + 0 := by
  rw [countRun, hk, if_neg he, range6_map_sum]

theorem countRun_expand_even7 (k : Nat) (hk : k / 2 = 7) (he : ¬ (k % 2 = 1)) :
    countRun k =
      (workerRun k 0 + (workerRun k 1 + (workerRun k 2 + (workerRun k 3 + (workerRun k 4 + (workerRun k 5 + (workerRun k 6 + 0))))))) * 2 + 0 := by
  rw [countRun, hk, if_neg he, range7_map_sum]

theorem list8_map_sum (f : Nat → Nat) (p1 p2 p3 p4 p5 p6 p7 p8 : Nat) :
    (List.map f [p1, p2, p3, p4, p5, p6, p7, p8]).sum =
      f p1 + (f p2 + (f p3 + (f p4 + (f p5 + (f p6 + (f p7 + (f p8 + 0))))))) := rfl

theorem btRun_split8 (n fuel c m mi p1 p2 p3 p4 p5 p6 p7 p8 : Nat)
    (h : lowBitsRun n (available_positions n c m mi) = [p1, p2, p3, p4, p5, p6, p7, p8]) :
    btRun n ((1 <<< n) - 1) (fuel + 1) c m mi =
      btRun n ((1 <<< n) - 1) fuel (c ||| p1) ((m ||| p1) <<< 1) ((mi ||| p1) >>> 1) +
        (btRun n ((1 <<< n) - 1) fuel (c ||| p2) ((m ||| p2) <<< 1) ((mi ||| p2) >>> 1) +
        (btRun n ((1 <<< n) - 1) fuel (c ||| p3) ((m ||| p3) <<< 1) ((mi ||| p3) >>> 1) +
        (btRun n ((1 <<< n) - 1) fuel (c ||| p4) ((m ||| p4) <<< 1) ((mi ||| p4) >>> 1) +
        (btRun n ((1 <<< n) - 1) fuel (c ||| p5) ((m ||| p5) <<< 1) ((mi ||| p5) >>> 1) +
        (btRun n ((1 <<< n) - 1) fuel (c ||| p6) ((m ||| p6) <<< 1) ((mi ||| p6) >>> 1) +
        (btRun n ((1 <<< n) - 1) fuel (c ||| p7) ((m ||| p7) <<< 1) ((mi ||| p7) >>> 1) +
        (btRun n ((1 <<< n) - 1) fuel (c ||| p8) ((m ||| p8) <<< 1) ((mi ||| p8) >>> 1) + 0))))))) := by
  rw [btRun_split, h, list8_map_sum]

theorem list9_map_sum (f : Nat → Nat) (p1 p2 p3 p4 p5 p6 p7 p8 p9 : Nat) :
    (List.map f [p1, p2, p3, p4, p5, p6, p7, p8, p9]).sum =
      f p1 + (f p2 + (f p3 + (f p4 + (f p5 + (f p6 + (f p7 + (f p8 + (f p9 + 0)))))))) := rfl

theorem btRun_split9 (n fuel c m mi p1 p2 p3 p4 p5 p6 p7 p8 p9 : Nat)
    (h : lowBitsRun n (available_positions n c m mi) = [p1, p2, p3, p4, p5, p6, p7, p8, p9]) :
    btRun n ((1 <<< n) - 1) (fuel + 1) c m mi =
      btRun n ((1 <<< n) - 1) fuel (c ||| p1) ((m ||| p1) <<< 1) ((mi ||| p1) >>> 1) +
        (btRun n ((1 <<< n) - 1) fuel (c ||| p2) ((m ||| p2) <<< 1) ((mi ||| p2) >>> 1) +
        (btRun n ((1 <<< n) - 1) fuel (c ||| p3) ((m ||| p3) <<< 1) ((mi ||| p3) >>> 1) +
        (btRun n ((1 <<< n) - 1) fuel (c ||| p4) ((m ||| p4) <<< 1) ((mi ||| p4) >>> 1) +
        (btRun n ((1 <<< n) - 1) fuel (c ||| p5) ((m ||| p5) <<< 1) ((mi ||| p5) >>> 1) +
        (btRun n ((1 <<< n) - 1) fuel (c ||| p6) ((m ||| p6) <<< 1) ((mi ||| p6) >>> 1) +
        (btRun n ((1 <<< n) - 1) fuel (c ||| p7) ((m ||| p7) <<< 1) ((mi ||| p7) >>> 1) +
        (btRun n ((1 <<< n) - 1) fuel (c ||| p8) ((m ||| p8) <<< 1) ((mi ||| p8) >>> 1) +
        (btRun n ((1 <<< n) - 1) fuel (c ||| p9) ((m ||| p9) <<< 1) ((mi ||| p9) >>> 1) + 0)))))))) := by
  rw [btRun_split, h, list9_map_sum]

theorem list11_map_sum (f : Nat → Nat) (p1 p2 p3 p4 p5 p6 p7 p8 p9 p10 p11 : Nat) :
    (List.map f [p1, p2, p3, p4, p5, p6, p7, p8, p9, p10, p11]).sum =
      f p1 + (f p2 + (f p3 + (f p4 + (f p5 + (f p6 + (f p7 + (f p8 + (f p9 + (f p10 + (f p11 + 0)))))))))) := rfl

theorem btRun_split11 (n fuel c m mi p1 p2 p3 p4 p5 p6 p7 p8 p9 p10 p11 : Nat)
    (h : lowBitsRun n (available_positions n c m mi) = [p1, p2, p3, p4, p5, p6, p7, p8, p9, p10, p11]) :
    btRun n ((1 <<< n) - 1) (fuel + 1) c m mi =
      btRun n ((1 <<< n) - 1) fuel (c ||| p1) ((m ||| p1) <<< 1) ((mi ||| p1) >>> 1) +
        (btRun n ((1 <<< n) - 1) fuel (c ||| p2) ((m ||| p2) <<< 1) ((mi ||| p2) >>> 1) +
        (btRun n ((1 <<< n) - 1) fuel (c ||| p3) ((m ||| p3) <<< 1) ((mi ||| p3) >>> 1) +
        (btRun n ((1 <<< n) - 1) fuel (c ||| p4) ((m ||| p4) <<< 1) ((mi ||| p4) >>> 1) +
        (btRun n ((1 <<< n) - 1) fuel (c ||| p5) ((m ||| p5) <<< 1) ((mi ||| p5) >>> 1) +
        (btRun n ((1 <<< n) - 1) fuel (c ||| p6) ((m ||| p6) <<< 1) ((mi ||| p6) >>> 1) +
        (btRun n ((1 <<< n) - 1) fuel (c ||| p7) ((m ||| p7) <<< 1) ((mi ||| p7) >>> 1) +
        (btRun n ((1 <<< n) - 1) fuel (c ||| p8) ((m ||| p8) <<< 1) ((mi ||| p8) >>> 1) +
        (btRun n ((1 <<< n) - 1) fuel (c ||| p9) ((m ||| p9) <<< 1) ((mi ||| p9) >>> 1) +
        (btRun n ((1 <<< n) - 1) fuel (c ||| p10) ((m ||| p10) <<< 1) ((mi ||| p10) >>> 1) +
        (btRun n ((1 <<< n) - 1) fuel (c ||| p11) ((m ||| p11) <<< 1) ((mi ||| p11) >>> 1) + 0)))))))))) := by
  rw [btRun_split, h, list11_map_sum]


/-! The six seeded half-board sub-searches for n = 12, evaluated in the
kernel through the fuel-indexed evaluator `btRun`. -/

set_option maxRecDepth 100000 in
set_option maxHeartbeats 16000000 in
theorem workerRun_12_col0 : workerRun 12 0 = 500 := by decide!

set_option maxRecDepth 100000 in
set_option maxHeartbeats 16000000 in
theorem workerRun_12_col1 : workerRun 12 1 = 806 := by decide!

set_option maxRecDepth 100000 in
set_option maxHeartbeats 16000000 in
theorem workerRun_12_col2 : workerRun 12 2 = 1165 := by decide!

set_option maxRecDepth 100000 in
set_option maxHeartbeats 16000000 in
theorem workerRun_12_col3 : workerRun 12 3 = 1359 := by decide!

set_option maxRecDepth 100000 in
set_option maxHeartbeats 16000000 in
theorem workerRun_12_col4 : workerRun 12 4 = 1631 := by decide!

set_option maxRecDepth 100000 in
set_option maxHeartbeats 16000000 in
theorem workerRun_12_col5 : workerRun 12 5 = 1639 := by decide!

set_option maxRecDepth 100000 in
set_option maxHeartbeats 4000000 in
theorem countRun_val_12 : countRun 12 = 14200 := by
  rw [countRun_expand_even6 12 rfl (by decide), workerRun_12_col0, workerRun_12_col1,
    workerRun_12_col2, workerRun_12_col3, workerRun_12_col4, workerRun_12_col5]

set_option maxRecDepth 100000 in
set_option maxHeartbeats 4000000 in
theorem countRun_val_0 : countRun 0 = 0 := by decide!

set_option maxRecDepth 100000 in
set_option maxHeartbeats 4000000 in
theorem countRun_val_1 : countRun 1 = 1 := by decide!

set_option maxRecDepth 100000 in
set_option maxHeartbeats 4000000 in
theorem countRun_val_2 : countRun 2 = 0 := by decide!

set_option maxRecDepth 100000 in
set_option maxHeartbeats 4000000 in
theorem countRun_val_3 : countRun 3 = 0 := by decide!

set_option maxRecDepth 100000 in
set_option maxHeartbeats 4000000 in
theorem countRun_val_4 : countRun 4 = 2 := by decide!

set_option maxRecDepth 100000 in
set_option maxHeartbeats 4000000 in
theorem countRun_val_5 : countRun 5 = 10 := by decide!

set_option maxRecDepth 100000 in
set_option maxHeartbeats 4000000 in
theorem countRun_val_6 : countRun 6 = 4 := by decide!

set_option maxRecDepth 100000 in
set_option maxHeartbeats 4000000 in
theorem countRun_val_7 : countRun 7 = 40 := by decide!

set_option maxRecDepth 100000 in
set_option maxHeartbeats 4000000 in
theorem countRun_val_8 : countRun 8 = 92 := by decide!

set_option maxRecDepth 100000 in
set_option maxHeartbeats 4000000 in
theorem countRun_val_10 : countRun 10 = 724 := by decide!

/-! Kernel evaluation of the n = 14, first-queen-column-6 sub-search,
split one level at a time so that each certified declaration stays small:
grandchild subtree counts are evaluated by the kernel, and each parent is
the proven sum of its children via the symbolic split lemmas. -/

set_option maxRecDepth 100000 in
set_option maxHeartbeats 1600000 in
theorem wr14_c0_g0 :
    btRun 14 ((1 <<< 14) - 1) 11 (((1 <<< 6) ||| 1) ||| 4)
      ((((((1 <<< 6) <<< 1) ||| 1) <<< 1) ||| 4) <<< 1) ((((((1 <<< 6) >>> 1) ||| 1) >>> 1) ||| 4) >>> 1) = 136 := by decide!

set_option maxRecDepth 100000 in
set_option maxHeartbeats 1600000 in
theorem wr14_c0_g1 :
    btRun 14 ((1 <<< 14) - 1) 11 (((1 <<< 6) ||| 1) ||| 8)
      ((((((1 <<< 6) <<< 1) ||| 1) <<< 1) ||| 8) <<< 1) ((((((1 <<< 6) >>> 1) ||| 1) >>> 1) ||| 8) >>> 1) = 218 := by decide!

set_option maxRecDepth 100000 in
set_option maxHeartbeats 1600000 in
theorem wr14_c0_g2 :
    btRun 14 ((1 <<< 14) - 1) 11 (((1 <<< 6) ||| 1) ||| 32)
      ((((((1 <<< 6) <<< 1) ||| 1) <<< 1) ||| 32) <<< 1) ((((((1 <<< 6) >>> 1) ||| 1) >>> 1) ||| 32) >>> 1) = 214 := by decide!

set_option maxRecDepth 100000 in
set_option maxHeartbeats 1600000 in
theorem wr14_c0_g3 :
    btRun 14 ((1 <<< 14) - 1) 11 (((1 <<< 6) ||| 1) ||| 128)
      ((((((1 <<< 6) <<< 1) ||| 1) <<< 1) ||| 128) <<< 1) ((((((1 <<< 6) >>> 1) ||| 1) >>> 1) ||| 128) >>> 1) = 302 := by decide!

set_option maxRecDepth 100000 in
set_option maxHeartbeats 1600000 in
theorem wr14_c0_g4 :
    btRun 14 ((1 <<< 14) - 1) 11 (((1 <<< 6) ||| 1) ||| 512)
      ((((((1 <<< 6) <<< 1) ||| 1) <<< 1) ||| 512) <<< 1) ((((((1 <<< 6) >>> 1) ||| 1) >>> 1) ||| 512) >>> 1) = 278 := by decide!

set_option maxRecDepth 100000 in
set_option maxHeartbeats 1600000 in
theorem wr14_c0_g5 :
    btRun 14 ((1 <<< 14) - 1) 11 (((1 <<< 6) ||| 1) ||| 1024)
      ((((((1 <<< 6) <<< 1) ||| 1) <<< 1) ||| 1024) <<< 1) ((((((1 <<< 6) >>> 1) ||| 1) >>> 1) ||| 1024) >>> 1) = 282 := by decide!

set_option maxRecDepth 100000 in
set_option maxHeartbeats 1600000 in
theorem wr14_c0_g6 :
    btRun 14 ((1 <<< 14) - 1) 11 (((1 <<< 6) ||| 1) ||| 2048)
      ((((((1 <<< 6) <<< 1) ||| 1) <<< 1) ||| 2048) <<< 1) ((((((1 <<< 6) >>> 1) ||| 1) >>> 1) ||| 2048) >>> 1) = 221 := by decide!

set_option maxRecDepth 100000 in
set_option maxHeartbeats 1600000 in
theorem wr14_c0_g7 :
    btRun 14 ((1 <<< 14) - 1) 11 (((1 <<< 6) ||| 1) ||| 4096)
      ((((((1 <<< 6) <<< 1) ||| 1) <<< 1) ||| 4096) <<< 1) ((((((1 <<< 6) >>> 1) ||| 1) >>> 1) ||| 4096) >>> 1) = 151 := by decide!

set_option maxRecDepth 100000 in
set_option maxHeartbeats 1600000 in
theorem wr14_c0_g8 :
    btRun 14 ((1 <<< 14) - 1) 11 (((1 <<< 6) ||| 1) ||| 8192)
      ((((((1 <<< 6) <<< 1) ||| 1) <<< 1) ||| 8192) <<< 1) ((((((1 <<< 6) >>> 1) ||| 1) >>> 1) ||| 8192) >>> 1) = 113 := by decide!

set_option maxRecDepth 100000 in
set_option maxHeartbeats 1000000 in
theorem wr14_c0 :
    btRun 14 ((1 <<< 14) - 1) 12 ((1 <<< 6) ||| 1) ((((1 <<< 6) <<< 1) ||| 1) <<< 1) ((((1 <<< 6) >>> 1) ||| 1) >>> 1) = 1915 := by
  rw [show (12 : Nat) = 11 + 1 from rfl,
    btRun_split9 14 11 ((1 <<< 6) ||| 1) ((((1 <<< 6) <<< 1) ||| 1) <<< 1) ((((1 <<< 6) >>> 1) ||| 1) >>> 1)
      4 8 32 128 512 1024 2048 4096 8192 (by decide),
    wr14_c0_g0, wr14_c0_g1, wr14_c0_g2, wr14_c0_g3, wr14_c0_g4, wr14_c0_g5, wr14_c0_g6, wr14_c0_g7, wr14_c0_g8]

set_option maxRecDepth 100000 in
set_option maxHeartbeats 1600000 in
theorem wr14_c1_g0 :
    btRun 14 ((1 <<< 14) - 1) 11 (((1 <<< 6) ||| 2) ||| 8)
      ((((((1 <<< 6) <<< 1) ||| 2) <<< 1) ||| 8) <<< 1) ((((((1 <<< 6) >>> 1) ||| 2) >>> 1) ||| 8) >>> 1) = 255 := by decide!

set_option maxRecDepth 100000 in
set_option maxHeartbeats 1600000 in
theorem wr14_c1_g1 :
    btRun 14 ((1 <<< 14) - 1) 11 (((1 <<< 6) ||| 2) ||| 32)
      ((((((1 <<< 6) <<< 1) ||| 2) <<< 1) ||| 32) <<< 1) ((((((1 <<< 6) >>> 1) ||| 2) >>> 1) ||| 32) >>> 1) = 335 := by decide!

set_option maxRecDepth 100000 in
set_option maxHeartbeats 1600000 in
theorem wr14_c1_g2 :
    btRun 14 ((1 <<< 14) - 1) 11 (((1 <<< 6) ||| 2) ||| 128)
      ((((((1 <<< 6) <<< 1) ||| 2) <<< 1) ||| 128) <<< 1) ((((((1 <<< 6) >>> 1) ||| 2) >>> 1) ||| 128) >>> 1) = 308 := by decide!

set_option maxRecDepth 100000 in
set_option maxHeartbeats 1600000 in
theorem wr14_c1_g3 :
    btRun 14 ((1 <<< 14) - 1) 11 (((1 <<< 6) ||| 2) ||| 512)
      ((((((1 <<< 6) <<< 1) ||| 2) <<< 1) ||| 512) <<< 1) ((((((1 <<< 6) >>> 1) ||| 2) >>> 1) ||| 512) >>> 1) = 434 := by decide!

set_option maxRecDepth 100000 in
set_option maxHeartbeats 1600000 in
theorem wr14_c1_g4 :
    btRun 14 ((1 <<< 14) - 1) 11 (((1 <<< 6) ||| 2) ||| 1024)
      ((((((1 <<< 6) <<< 1) ||| 2) <<< 1) ||| 1024) <<< 1) ((((((1 <<< 6) >>> 1) ||| 2) >>> 1) ||| 1024) >>> 1) = 427 := by decide!

set_option maxRecDepth 100000 in
set_option maxHeartbeats 1600000 in
theorem wr14_c1_g5 :
    btRun 14 ((1 <<< 14) - 1) 11 (((1 <<< 6) ||| 2) ||| 2048)
      ((((((1 <<< 6) <<< 1) ||| 2) <<< 1) ||| 2048) <<< 1) ((((((1 <<< 6) >>> 1) ||| 2) >>> 1) ||| 2048) >>> 1) = 323 := by decide!

set_option maxRecDepth 100000 in
set_option maxHeartbeats 1600000 in
theorem wr14_c1_g6 :
    btRun 14 ((1 <<< 14) - 1) 11 (((1 <<< 6) ||| 2) ||| 4096)
      ((((((1 <<< 6) <<< 1) ||| 2) <<< 1) ||| 4096) <<< 1) ((((((1 <<< 6) >>> 1) ||| 2) >>> 1) ||| 4096) >>> 1) = 406 := by decide!

set_option maxRecDepth 100000 in
set_option maxHeartbeats 1600000 in
theorem wr14_c1_g7 :
    btRun 14 ((1 <<< 14) - 1) 11 (((1 <<< 6) ||| 2) ||| 8192)
      ((((((1 <<< 6) <<< 1) ||| 2) <<< 1) ||| 8192) <<< 1) ((((((1 <<< 6) >>> 1) ||| 2) >>> 1) ||| 8192) >>> 1) = 213 := by decide!

set_option maxRecDepth 100000 in
set_option maxHeartbeats 1000000 in
theorem wr14_c1 :
    btRun 14 ((1 <<< 14) - 1) 12 ((1 <<< 6) ||| 2) ((((1 <<< 6) <<< 1) ||| 2) <<< 1) ((((1 <<< 6) >>> 1) ||| 2) >>> 1) = 2701 := by
  rw [show (12 : Nat) = 11 + 1 from rfl,
    btRun_split8 14 11 ((1 <<< 6) ||| 2) ((((1 <<< 6) <<< 1) ||| 2) <<< 1) ((((1 <<< 6) >>> 1) ||| 2) >>> 1)
      8 32 128 512 1024 2048 4096 8192 (by decide),
    wr14_c1_g0, wr14_c1_g1, wr14_c1_g2, wr14_c1_g3, wr14_c1_g4, wr14_c1_g5, wr14_c1_g6, wr14_c1_g7]

set_option maxRecDepth 100000 in
set_option maxHeartbeats 1600000 in
theorem wr14_c2_g0 :
    btRun 14 ((1 <<< 14) - 1) 11 (((1 <<< 6) ||| 4) ||| 1)
      ((((((1 <<< 6) <<< 1) ||| 4) <<< 1) ||| 1) <<< 1) ((((((1 <<< 6) >>> 1) ||| 4) >>> 1) ||| 1) >>> 1) = 175 := by decide!

set_option maxRecDepth 100000 in
set_option maxHeartbeats 1600000 in
theorem wr14_c2_g1 :
    btRun 14 ((1 <<< 14) - 1) 11 (((1 <<< 6) ||| 4) ||| 32)
      ((((((1 <<< 6) <<< 1) ||| 4) <<< 1) ||| 32) <<< 1) ((((((1 <<< 6) >>> 1) ||| 4) >>> 1) ||| 32) >>> 1) = 414 := by decide!

set_option maxRecDepth 100000 in
set_option maxHeartbeats 1600000 in
theorem wr14_c2_g2 :
    btRun 14 ((1 <<< 14) - 1) 11 (((1 <<< 6) ||| 4) ||| 128)
      ((((((1 <<< 6) <<< 1) ||| 4) <<< 1) ||| 128) <<< 1) ((((((1 <<< 6) >>> 1) ||| 4) >>> 1) ||| 128) >>> 1) = 569 := by decide!

set_option maxRecDepth 100000 in
set_option maxHeartbeats 1600000 in
theorem wr14_c2_g3 :
    btRun 14 ((1 <<< 14) - 1) 11 (((1 <<< 6) ||| 4) ||| 512)
      ((((((1 <<< 6) <<< 1) ||| 4) <<< 1) ||| 512) <<< 1) ((((((1 <<< 6) >>> 1) ||| 4) >>> 1) ||| 512) >>> 1) = 519 := by decide!

set_option maxRecDepth 100000 in
set_option maxHeartbeats 1600000 in
theorem wr14_c2_g4 :
    btRun 14 ((1 <<< 14) - 1) 11 (((1 <<< 6) ||| 4) ||| 1024)
      ((((((1 <<< 6) <<< 1) ||| 4) <<< 1) ||| 1024) <<< 1) ((((((1 <<< 6) >>> 1) ||| 4) >>> 1) ||| 1024) >>> 1) = 645 := by decide!

set_option maxRecDepth 100000 in
set_option maxHeartbeats 1600000 in
theorem wr14_c2_g5 :
    btRun 14 ((1 <<< 14) - 1) 11 (((1 <<< 6) ||| 4) ||| 2048)
      ((((((1 <<< 6) <<< 1) ||| 4) <<< 1) ||| 2048) <<< 1) ((((((1 <<< 6) >>> 1) ||| 4) >>> 1) ||| 2048) >>> 1) = 376 := by decide!

set_option maxRecDepth 100000 in
set_option maxHeartbeats 1600000 in
theorem wr14_c2_g6 :
    btRun 14 ((1 <<< 14) - 1) 11 (((1 <<< 6) ||| 4) ||| 4096)
      ((((((1 <<< 6) <<< 1) ||| 4) <<< 1) ||| 4096) <<< 1) ((((((1 <<< 6) >>> 1) ||| 4) >>> 1) ||| 4096) >>> 1) = 430 := by decide!

set_option maxRecDepth 100000 in
set_option maxHeartbeats 1600000 in
theorem wr14_c2_g7 :
    btRun 14 ((1 <<< 14) - 1) 11 (((1 <<< 6) ||| 4) ||| 8192)
      ((((((1 <<< 6) <<< 1) ||| 4) <<< 1) ||| 8192) <<< 1) ((((((1 <<< 6) >>> 1) ||| 4) >>> 1) ||| 8192) >>> 1) = 348 := by decide!

set_option maxRecDepth 100000 in
set_option maxHeartbeats 1000000 in
theorem wr14_c2 :
    btRun 14 ((1 <<< 14) - 1) 12 ((1 <<< 6) ||| 4) ((((1 <<< 6) <<< 1) ||| 4) <<< 1) ((((1 <<< 6) >>> 1) ||| 4) >>> 1) = 3476 := by
  rw [show (12 : Nat) = 11 + 1 from rfl,
    btRun_split8 14 11 ((1 <<< 6) ||| 4) ((((1 <<< 6) <<< 1) ||| 4) <<< 1) ((((1 <<< 6) >>> 1) ||| 4) >>> 1)
      1 32 128 512 1024 2048 4096 8192 (by decide),
    wr14_c2_g0, wr14_c2_g1, wr14_c2_g2, wr14_c2_g3, wr14_c2_g4, wr14_c2_g5, wr14_c2_g6, wr14_c2_g7]

set_option maxRecDepth 100000 in
set_option maxHeartbeats 1600000 in
theorem wr14_c3_g0 :
    btRun 14 ((1 <<< 14) - 1) 11 (((1 <<< 6) ||| 8) ||| 1)
      ((((((1 <<< 6) <<< 1) ||| 8) <<< 1) ||| 1) <<< 1) ((((((1 <<< 6) >>> 1) ||| 8) >>> 1) ||| 1) >>> 1) = 269 := by decide!

set_option maxRecDepth 100000 in
set_option maxHeartbeats 1600000 in
theorem wr14_c3_g1 :
    btRun 14 ((1 <<< 14) - 1) 11 (((1 <<< 6) ||| 8) ||| 2)
      ((((((1 <<< 6) <<< 1) ||| 8) <<< 1) ||| 2) <<< 1) ((((((1 <<< 6) >>> 1) ||| 8) >>> 1) ||| 2) >>> 1) = 279 := by decide!

set_option maxRecDepth 100000 in
set_option maxHeartbeats 1600000 in
theorem wr14_c3_g2 :
    btRun 14 ((1 <<< 14) - 1) 11 (((1 <<< 6) ||| 8) ||| 32)
      ((((((1 <<< 6) <<< 1) ||| 8) <<< 1) ||| 32) <<< 1) ((((((1 <<< 6) >>> 1) ||| 8) >>> 1) ||| 32) >>> 1) = 350 := by decide!

set_option maxRecDepth 100000 in
set_option maxHeartbeats 1600000 in
theorem wr14_c3_g3 :
    btRun 14 ((1 <<< 14) - 1) 11 (((1 <<< 6) ||| 8) ||| 128)
      ((((((1 <<< 6) <<< 1) ||| 8) <<< 1) ||| 128) <<< 1) ((((((1 <<< 6) >>> 1) ||| 8) >>> 1) ||| 128) >>> 1) = 451 := by decide!

set_option maxRecDepth 100000 in
set_option maxHeartbeats 1600000 in
theorem wr14_c3_g4 :
    btRun 14 ((1 <<< 14) - 1) 11 (((1 <<< 6) ||| 8) ||| 512)
      ((((((1 <<< 6) <<< 1) ||| 8) <<< 1) ||| 512) <<< 1) ((((((1 <<< 6) >>> 1) ||| 8) >>> 1) ||| 512) >>> 1) = 535 := by decide!

set_option maxRecDepth 100000 in
set_option maxHeartbeats 1600000 in
theorem wr14_c3_g5 :
    btRun 14 ((1 <<< 14) - 1) 11 (((1 <<< 6) ||| 8) ||| 1024)
      ((((((1 <<< 6) <<< 1) ||| 8) <<< 1) ||| 1024) <<< 1) ((((((1 <<< 6) >>> 1) ||| 8) >>> 1) ||| 1024) >>> 1) = 628 := by decide!

set_option maxRecDepth 100000 in
set_option maxHeartbeats 1600000 in
theorem wr14_c3_g6 :
    btRun 14 ((1 <<< 14) - 1) 11 (((1 <<< 6) ||| 8) ||| 2048)
      ((((((1 <<< 6) <<< 1) ||| 8) <<< 1) ||| 2048) <<< 1) ((((((1 <<< 6) >>> 1) ||| 8) >>> 1) ||| 2048) >>> 1) = 483 := by decide!

set_option maxRecDepth 100000 in
set_option maxHeartbeats 1600000 in
theorem wr14_c3_g7 :
    btRun 14 ((1 <<< 14) - 1) 11 (((1 <<< 6) ||| 8) ||| 4096)
      ((((((1 <<< 6) <<< 1) ||| 8) <<< 1) ||| 4096) <<< 1) ((((((1 <<< 6) >>> 1) ||| 8) >>> 1) ||| 4096) >>> 1) = 476 := by decide!

set_option maxRecDepth 100000 in
set_option maxHeartbeats 1600000 in
theorem wr14_c3_g8 :
    btRun 14 ((1 <<< 14) - 1) 11 (((1 <<< 6) ||| 8) ||| 8192)
      ((((((1 <<< 6) <<< 1) ||| 8) <<< 1) ||| 8192) <<< 1) ((((((1 <<< 6) >>> 1) ||| 8) >>> 1) ||| 8192) >>> 1) = 310 := by decide!

set_option maxRecDepth 100000 in
set_option maxHeartbeats 1000000 in
theorem wr14_c3 :
    btRun 14 ((1 <<< 14) - 1) 12 ((1 <<< 6) ||| 8) ((((1 <<< 6) <<< 1) ||| 8) <<< 1) ((((1 <<< 6) >>> 1) ||| 8) >>> 1) = 3781 := by
  rw [show (12 : Nat) = 11 + 1 from rfl,
    btRun_split9 14 11 ((1 <<< 6) ||| 8) ((((1 <<< 6) <<< 1) ||| 8) <<< 1) ((((1 <<< 6) >>> 1) ||| 8) >>> 1)
      1 2 32 128 512 1024 2048 4096 8192 (by decide),
    wr14_c3_g0, wr14_c3_g1, wr14_c3_g2, wr14_c3_g3, wr14_c3_g4, wr14_c3_g5, wr14_c3_g6, wr14_c3_g7, wr14_c3_g8]

set_option maxRecDepth 100000 in
set_option maxHeartbeats 1600000 in
theorem wr14_c4_g0 :
    btRun 14 ((1 <<< 14) - 1) 11 (((1 <<< 6) ||| 16) ||| 1)
      ((((((1 <<< 6) <<< 1) ||| 16) <<< 1) ||| 1) <<< 1) ((((((1 <<< 6) >>> 1) ||| 16) >>> 1) ||| 1) >>> 1) = 313 := by decide!

set_option maxRecDepth 100000 in
set_option maxHeartbeats 1600000 in
theorem wr14_c4_g1 :
    btRun 14 ((1 <<< 14) - 1) 11 (((1 <<< 6) ||| 16) ||| 2)
      ((((((1 <<< 6) <<< 1) ||| 16) <<< 1) ||| 2) <<< 1) ((((((1 <<< 6) >>> 1) ||| 16) >>> 1) ||| 2) >>> 1) = 377 := by decide!

set_option maxRecDepth 100000 in
set_option maxHeartbeats 1600000 in
theorem wr14_c4_g2 :
    btRun 14 ((1 <<< 14) - 1) 11 (((1 <<< 6) ||| 16) ||| 4)
      ((((((1 <<< 6) <<< 1) ||| 16) <<< 1) ||| 4) <<< 1) ((((((1 <<< 6) >>> 1) ||| 16) >>> 1) ||| 4) >>> 1) = 404 := by decide!

set_option maxRecDepth 100000 in
set_option maxHeartbeats 1600000 in
theorem wr14_c4_g3 :
    btRun 14 ((1 <<< 14) - 1) 11 (((1 <<< 6) ||| 16) ||| 128)
      ((((((1 <<< 6) <<< 1) ||| 16) <<< 1) ||| 128) <<< 1) ((((((1 <<< 6) >>> 1) ||| 16) >>> 1) ||| 128) >>> 1) = 434 := by decide!

set_option maxRecDepth 100000 in
set_option maxHeartbeats 1600000 in
theorem wr14_c4_g4 :
    btRun 14 ((1 <<< 14) - 1) 11 (((1 <<< 6) ||| 16) ||| 512)
      ((((((1 <<< 6) <<< 1) ||| 16) <<< 1) ||| 512) <<< 1) ((((((1 <<< 6) >>> 1) ||| 16) >>> 1) ||| 512) >>> 1) = 646 := by decide!

set_option maxRecDepth 100000 in
set_option maxHeartbeats 1600000 in
theorem wr14_c4_g5 :
    btRun 14 ((1 <<< 14) - 1) 11 (((1 <<< 6) ||| 16) ||| 1024)
      ((((((1 <<< 6) <<< 1) ||| 16) <<< 1) ||| 1024) <<< 1) ((((((1 <<< 6) >>> 1) ||| 16) >>> 1) ||| 1024) >>> 1) = 556 := by decide!

set_option maxRecDepth 100000 in
set_option maxHeartbeats 1600000 in
theorem wr14_c4_g6 :
    btRun 14 ((1 <<< 14) - 1) 11 (((1 <<< 6) ||| 16) ||| 2048)
      ((((((1 <<< 6) <<< 1) ||| 16) <<< 1) ||| 2048) <<< 1) ((((((1 <<< 6) >>> 1) ||| 16) >>> 1) ||| 2048) >>> 1) = 454 := by decide!

set_option maxRecDepth 100000 in
set_option maxHeartbeats 1600000 in
theorem wr14_c4_g7 :
    btRun 14 ((1 <<< 14) - 1) 11 (((1 <<< 6) ||| 16) ||| 4096)
      ((((((1 <<< 6) <<< 1) ||| 16) <<< 1) ||| 4096) <<< 1) ((((((1 <<< 6) >>> 1) ||| 16) >>> 1) ||| 4096) >>> 1) = 459 := by decide!

set_option maxRecDepth 100000 in
set_option maxHeartbeats 1600000 in
theorem wr14_c4_g8 :
    btRun 14 ((1 <<< 14) - 1) 11 (((1 <<< 6) ||| 16) ||| 8192)
      ((((((1 <<< 6) <<< 1) ||| 16) <<< 1) ||| 8192) <<< 1) ((((((1 <<< 6) >>> 1) ||| 16) >>> 1) ||| 8192) >>> 1) = 411 := by decide!

set_option maxRecDepth 100000 in
set_option maxHeartbeats 1000000 in
theorem wr14_c4 :
    btRun 14 ((1 <<< 14) - 1) 12 ((1 <<< 6) ||| 16) ((((1 <<< 6) <<< 1) ||| 16) <<< 1) ((((1 <<< 6) >>> 1) ||| 16) >>> 1) = 4054 := by
  rw [show (12 : Nat) = 11 + 1 from rfl,
    btRun_split9 14 11 ((1 <<< 6) ||| 16) ((((1 <<< 6) <<< 1) ||| 16) <<< 1) ((((1 <<< 6) >>> 1) ||| 16) >>> 1)
      1 2 4 128 512 1024 2048 4096 8192 (by decide),
    wr14_c4_g0, wr14_c4_g1, wr14_c4_g2, wr14_c4_g3, wr14_c4_g4, wr14_c4_g5, wr14_c4_g6, wr14_c4_g7, wr14_c4_g8]

set_option maxRecDepth 100000 in
set_option maxHeartbeats 1600000 in
theorem wr14_c5_g0 :
    btRun 14 ((1 <<< 14) - 1) 11 (((1 <<< 6) ||| 256) ||| 1)
      ((((((1 <<< 6) <<< 1) ||| 256) <<< 1) ||| 1) <<< 1) ((((((1 <<< 6) >>> 1) ||| 256) >>> 1) ||| 1) >>> 1) = 447 := by decide!

set_option maxRecDepth 100000 in
set_option maxHeartbeats 1600000 in
theorem wr14_c5_g1 :
    btRun 14 ((1 <<< 14) - 1) 11 (((1 <<< 6) ||| 256) ||| 2)
      ((((((1 <<< 6) <<< 1) ||| 256) <<< 1) ||| 2) <<< 1) ((((((1 <<< 6) >>> 1) ||| 256) >>> 1) ||| 2) >>> 1) = 467 := by decide!

set_option maxRecDepth 100000 in
set_option maxHeartbeats 1600000 in
theorem wr14_c5_g2 :
    btRun 14 ((1 <<< 14) - 1) 11 (((1 <<< 6) ||| 256) ||| 4)
      ((((((1 <<< 6) <<< 1) ||| 256) <<< 1) ||| 4) <<< 1) ((((((1 <<< 6) >>> 1) ||| 256) >>> 1) ||| 4) >>> 1) = 537 := by decide!

set_option maxRecDepth 100000 in
set_option maxHeartbeats 1600000 in
theorem wr14_c5_g3 :
    btRun 14 ((1 <<< 14) - 1) 11 (((1 <<< 6) ||| 256) ||| 8)
      ((((((1 <<< 6) <<< 1) ||| 256) <<< 1) ||| 8) <<< 1) ((((((1 <<< 6) >>> 1) ||| 256) >>> 1) ||| 8) >>> 1) = 616 := by decide!

set_option maxRecDepth 100000 in
set_option maxHeartbeats 1600000 in
theorem wr14_c5_g4 :
    btRun 14 ((1 <<< 14) - 1) 11 (((1 <<< 6) ||| 256) ||| 32)
      ((((((1 <<< 6) <<< 1) ||| 256) <<< 1) ||| 32) <<< 1) ((((((1 <<< 6) >>> 1) ||| 256) >>> 1) ||| 32) >>> 1) = 465 := by decide!

set_option maxRecDepth 100000 in
set_option maxHeartbeats 1600000 in
theorem wr14_c5_g5 :
    btRun 14 ((1 <<< 14) - 1) 11 (((1 <<< 6) ||| 256) ||| 1024)
      ((((((1 <<< 6) <<< 1) ||| 256) <<< 1) ||| 1024) <<< 1) ((((((1 <<< 6) >>> 1) ||| 256) >>> 1) ||| 1024) >>> 1) = 546 := by decide!

set_option maxRecDepth 100000 in
set_option maxHeartbeats 1600000 in
theorem wr14_c5_g6 :
    btRun 14 ((1 <<< 14) - 1) 11 (((1 <<< 6) ||| 256) ||| 2048)
      ((((((1 <<< 6) <<< 1) ||| 256) <<< 1) ||| 2048) <<< 1) ((((((1 <<< 6) >>> 1) ||| 256) >>> 1) ||| 2048) >>> 1) = 479 := by decide!

set_option maxRecDepth 100000 in
set_option maxHeartbeats 1600000 in
theorem wr14_c5_g7 :
    btRun 14 ((1 <<< 14) - 1) 11 (((1 <<< 6) ||| 256) ||| 4096)
      ((((((1 <<< 6) <<< 1) ||| 256) <<< 1) ||| 4096) <<< 1) ((((((1 <<< 6) >>> 1) ||| 256) >>> 1) ||| 4096) >>> 1) = 465 := by decide!

set_option maxRecDepth 100000 in
set_option maxHeartbeats 1600000 in
theorem wr14_c5_g8 :
    btRun 14 ((1 <<< 14) - 1) 11 (((1 <<< 6) ||| 256) ||| 8192)
      ((((((1 <<< 6) <<< 1) ||| 256) <<< 1) ||| 8192) <<< 1) ((((((1 <<< 6) >>> 1) ||| 256) >>> 1) ||| 8192) >>> 1) = 347 := by decide!

set_option maxRecDepth 100000 in
set_option maxHeartbeats 1000000 in
theorem wr14_c5 :
    btRun 14 ((1 <<< 14) - 1) 12 ((1 <<< 6) ||| 256) ((((1 <<< 6) <<< 1) ||| 256) <<< 1) ((((1 <<< 6) >>> 1) ||| 256) >>> 1) = 4369 := by
  rw [show (12 : Nat) = 11 + 1 from rfl,
    btRun_split9 14 11 ((1 <<< 6) ||| 256) ((((1 <<< 6) <<< 1) ||| 256) <<< 1) ((((1 <<< 6) >>> 1) ||| 256) >>> 1)
      1 2 4 8 32 1024 2048 4096 8192 (by decide),
    wr14_c5_g0, wr14_c5_g1, wr14_c5_g2, wr14_c5_g3, wr14_c5_g4, wr14_c5_g5, wr14_c5_g6, wr14_c5_g7, wr14_c5_g8]

set_option maxRecDepth 100000 in
set_option maxHeartbeats 1600000 in
theorem wr14_c6_g0 :
    btRun 14 ((1 <<< 14) - 1) 11 (((1 <<< 6) ||| 512) ||| 1)
      ((((((1 <<< 6) <<< 1) ||| 512) <<< 1) ||| 1) <<< 1) ((((((1 <<< 6) >>> 1) ||| 512) >>> 1) ||| 1) >>> 1) = 479 := by decide!

set_option maxRecDepth 100000 in
set_option maxHeartbeats 1600000 in
theorem wr14_c6_g1 :
    btRun 14 ((1 <<< 14) - 1) 11 (((1 <<< 6) ||| 512) ||| 2)
      ((((((1 <<< 6) <<< 1) ||| 512) <<< 1) ||| 2) <<< 1) ((((((1 <<< 6) >>> 1) ||| 512) >>> 1) ||| 2) >>> 1) = 462 := by decide!

set_option maxRecDepth 100000 in
set_option maxHeartbeats 1600000 in
theorem wr14_c6_g2 :
    btRun 14 ((1 <<< 14) - 1) 11 (((1 <<< 6) ||| 512) ||| 4)
      ((((((1 <<< 6) <<< 1) ||| 512) <<< 1) ||| 4) <<< 1) ((((((1 <<< 6) >>> 1) ||| 512) >>> 1) ||| 4) >>> 1) = 636 := by decide!

set_option maxRecDepth 100000 in
set_option maxHeartbeats 1600000 in
theorem wr14_c6_g3 :
    btRun 14 ((1 <<< 14) - 1) 11 (((1 <<< 6) ||| 512) ||| 8)
      ((((((1 <<< 6) <<< 1) ||| 512) <<< 1) ||| 8) <<< 1) ((((((1 <<< 6) >>> 1) ||| 512) >>> 1) ||| 8) >>> 1) = 520 := by decide!

set_option maxRecDepth 100000 in
set_option maxHeartbeats 1600000 in
theorem wr14_c6_g4 :
    btRun 14 ((1 <<< 14) - 1) 11 (((1 <<< 6) ||| 512) ||| 32)
      ((((((1 <<< 6) <<< 1) ||| 512) <<< 1) ||| 32) <<< 1) ((((((1 <<< 6) >>> 1) ||| 512) >>> 1) ||| 32) >>> 1) = 554 := by decide!

set_option maxRecDepth 100000 in
set_option maxHeartbeats 1600000 in
theorem wr14_c6_g5 :
    btRun 14 ((1 <<< 14) - 1) 11 (((1 <<< 6) ||| 512) ||| 128)
      ((((((1 <<< 6) <<< 1) ||| 512) <<< 1) ||| 128) <<< 1) ((((((1 <<< 6) >>> 1) ||| 512) >>> 1) ||| 128) >>> 1) = 462 := by decide!

set_option maxRecDepth 100000 in
set_option maxHeartbeats 1600000 in
theorem wr14_c6_g6 :
    btRun 14 ((1 <<< 14) - 1) 11 (((1 <<< 6) ||| 512) ||| 2048)
      ((((((1 <<< 6) <<< 1) ||| 512) <<< 1) ||| 2048) <<< 1) ((((((1 <<< 6) >>> 1) ||| 512) >>> 1) ||| 2048) >>> 1) = 461 := by decide!

set_option maxRecDepth 100000 in
set_option maxHeartbeats 1600000 in
theorem wr14_c6_g7 :
    btRun 14 ((1 <<< 14) - 1) 11 (((1 <<< 6) ||| 512) ||| 4096)
      ((((((1 <<< 6) <<< 1) ||| 512) <<< 1) ||| 4096) <<< 1) ((((((1 <<< 6) >>> 1) ||| 512) >>> 1) ||| 4096) >>> 1) = 517 := by decide!

set_option maxRecDepth 100000 in
set_option maxHeartbeats 1600000 in
theorem wr14_c6_g8 :
    btRun 14 ((1 <<< 14) - 1) 11 (((1 <<< 6) ||| 512) ||| 8192)
      ((((((1 <<< 6) <<< 1) ||| 512) <<< 1) ||| 8192) <<< 1) ((((((1 <<< 6) >>> 1) ||| 512) >>> 1) ||| 8192) >>> 1) = 348 := by decide!

set_option maxRecDepth 100000 in
set_option maxHeartbeats 1000000 in
theorem wr14_c6 :
    btRun 14 ((1 <<< 14) - 1) 12 ((1 <<< 6) ||| 512) ((((1 <<< 6) <<< 1) ||| 512) <<< 1) ((((1 <<< 6) >>> 1) ||| 512) >>> 1) = 4439 := by
  rw [show (12 : Nat) = 11 + 1 from rfl,
    btRun_split9 14 11 ((1 <<< 6) ||| 512) ((((1 <<< 6) <<< 1) ||| 512) <<< 1) ((((1 <<< 6) >>> 1) ||| 512) >>> 1)
      1 2 4 8 32 128 2048 4096 8192 (by decide),
    wr14_c6_g0, wr14_c6_g1, wr14_c6_g2, wr14_c6_g3, wr14_c6_g4, wr14_c6_g5, wr14_c6_g6, wr14_c6_g7, wr14_c6_g8]

set_option maxRecDepth 100000 in
set_option maxHeartbeats 1600000 in
theorem wr14_c7_g0 :
    btRun 14 ((1 <<< 14) - 1) 11 (((1 <<< 6) ||| 1024) ||| 1)
      ((((((1 <<< 6) <<< 1) ||| 1024) <<< 1) ||| 1) <<< 1) ((((((1 <<< 6) >>> 1) ||| 1024) >>> 1) ||| 1) >>> 1) = 446 := by decide!

set_option maxRecDepth 100000 in
set_option maxHeartbeats 1600000 in
theorem wr14_c7_g1 :
    btRun 14 ((1 <<< 14) - 1) 11 (((1 <<< 6) ||| 1024) ||| 2)
      ((((((1 <<< 6) <<< 1) ||| 1024) <<< 1) ||| 2) <<< 1) ((((((1 <<< 6) >>> 1) ||| 1024) >>> 1) ||| 2) >>> 1) = 420 := by decide!

set_option maxRecDepth 100000 in
set_option maxHeartbeats 1600000 in
theorem wr14_c7_g2 :
    btRun 14 ((1 <<< 14) - 1) 11 (((1 <<< 6) ||| 1024) ||| 4)
      ((((((1 <<< 6) <<< 1) ||| 1024) <<< 1) ||| 4) <<< 1) ((((((1 <<< 6) >>> 1) ||| 1024) >>> 1) ||| 4) >>> 1) = 665 := by decide!

set_option maxRecDepth 100000 in
set_option maxHeartbeats 1600000 in
theorem wr14_c7_g3 :
    btRun 14 ((1 <<< 14) - 1) 11 (((1 <<< 6) ||| 1024) ||| 8)
      ((((((1 <<< 6) <<< 1) ||| 1024) <<< 1) ||| 8) <<< 1) ((((((1 <<< 6) >>> 1) ||| 1024) >>> 1) ||| 8) >>> 1) = 491 := by decide!

set_option maxRecDepth 100000 in
set_option maxHeartbeats 1600000 in
theorem wr14_c7_g4 :
    btRun 14 ((1 <<< 14) - 1) 11 (((1 <<< 6) ||| 1024) ||| 32)
      ((((((1 <<< 6) <<< 1) ||| 1024) <<< 1) ||| 32) <<< 1) ((((((1 <<< 6) >>> 1) ||| 1024) >>> 1) ||| 32) >>> 1) = 672 := by decide!

set_option maxRecDepth 100000 in
set_option maxHeartbeats 1600000 in
theorem wr14_c7_g5 :
    btRun 14 ((1 <<< 14) - 1) 11 (((1 <<< 6) ||| 1024) ||| 128)
      ((((((1 <<< 6) <<< 1) ||| 1024) <<< 1) ||| 128) <<< 1) ((((((1 <<< 6) >>> 1) ||| 1024) >>> 1) ||| 128) >>> 1) = 532 := by decide!

set_option maxRecDepth 100000 in
set_option maxHeartbeats 1600000 in
theorem wr14_c7_g6 :
    btRun 14 ((1 <<< 14) - 1) 11 (((1 <<< 6) ||| 1024) ||| 4096)
      ((((((1 <<< 6) <<< 1) ||| 1024) <<< 1) ||| 4096) <<< 1) ((((((1 <<< 6) >>> 1) ||| 1024) >>> 1) ||| 4096) >>> 1) = 340 := by decide!

set_option maxRecDepth 100000 in
set_option maxHeartbeats 1600000 in
theorem wr14_c7_g7 :
    btRun 14 ((1 <<< 14) - 1) 11 (((1 <<< 6) ||| 1024) ||| 8192)
      ((((((1 <<< 6) <<< 1) ||| 1024) <<< 1) ||| 8192) <<< 1) ((((((1 <<< 6) >>> 1) ||| 1024) >>> 1) ||| 8192) >>> 1) = 324 := by decide!

set_option maxRecDepth 100000 in
set_option maxHeartbeats 1000000 in
theorem wr14_c7 :
    btRun 14 ((1 <<< 14) - 1) 12 ((1 <<< 6) ||| 1024) ((((1 <<< 6) <<< 1) ||| 1024) <<< 1) ((((1 <<< 6) >>> 1) ||| 1024) >>> 1) = 3890 := by
  rw [show (12 : Nat) = 11 + 1 from rfl,
    btRun_split8 14 11 ((1 <<< 6) ||| 1024) ((((1 <<< 6) <<< 1) ||| 1024) <<< 1) ((((1 <<< 6) >>> 1) ||| 1024) >>> 1)
      1 2 4 8 32 128 4096 8192 (by decide),
    wr14_c7_g0, wr14_c7_g1, wr14_c7_g2, wr14_c7_g3, wr14_c7_g4, wr14_c7_g5, wr14_c7_g6, wr14_c7_g7]

set_option maxRecDepth 100000 in
set_option maxHeartbeats 1600000 in
theorem wr14_c8_g0 :
    btRun 14 ((1 <<< 14) - 1) 11 (((1 <<< 6) ||| 2048) ||| 1)
      ((((((1 <<< 6) <<< 1) ||| 2048) <<< 1) ||| 1) <<< 1) ((((((1 <<< 6) >>> 1) ||| 2048) >>> 1) ||| 1) >>> 1) = 482 := by decide!

set_option maxRecDepth 100000 in
set_option maxHeartbeats 1600000 in
theorem wr14_c8_g1 :
    btRun 14 ((1 <<< 14) - 1) 11 (((1 <<< 6) ||| 2048) ||| 2)
      ((((((1 <<< 6) <<< 1) ||| 2048) <<< 1) ||| 2) <<< 1) ((((((1 <<< 6) >>> 1) ||| 2048) >>> 1) ||| 2) >>> 1) = 450 := by decide!

set_option maxRecDepth 100000 in
set_option maxHeartbeats 1600000 in
theorem wr14_c8_g2 :
    btRun 14 ((1 <<< 14) - 1) 11 (((1 <<< 6) ||| 2048) ||| 4)
      ((((((1 <<< 6) <<< 1) ||| 2048) <<< 1) ||| 4) <<< 1) ((((((1 <<< 6) >>> 1) ||| 2048) >>> 1) ||| 4) >>> 1) = 547 := by decide!

set_option maxRecDepth 100000 in
set_option maxHeartbeats 1600000 in
theorem wr14_c8_g3 :
    btRun 14 ((1 <<< 14) - 1) 11 (((1 <<< 6) ||| 2048) ||| 8)
      ((((((1 <<< 6) <<< 1) ||| 2048) <<< 1) ||| 8) <<< 1) ((((((1 <<< 6) >>> 1) ||| 2048) >>> 1) ||| 8) >>> 1) = 561 := by decide!

set_option maxRecDepth 100000 in
set_option maxHeartbeats 1600000 in
theorem wr14_c8_g4 :
    btRun 14 ((1 <<< 14) - 1) 11 (((1 <<< 6) ||| 2048) ||| 32)
      ((((((1 <<< 6) <<< 1) ||| 2048) <<< 1) ||| 32) <<< 1) ((((((1 <<< 6) >>> 1) ||| 2048) >>> 1) ||| 32) >>> 1) = 462 := by decide!

set_option maxRecDepth 100000 in
set_option maxHeartbeats 1600000 in
theorem wr14_c8_g5 :
    btRun 14 ((1 <<< 14) - 1) 11 (((1 <<< 6) ||| 2048) ||| 128)
      ((((((1 <<< 6) <<< 1) ||| 2048) <<< 1) ||| 128) <<< 1) ((((((1 <<< 6) >>> 1) ||| 2048) >>> 1) ||| 128) >>> 1) = 588 := by decide!

set_option maxRecDepth 100000 in
set_option maxHeartbeats 1600000 in
theorem wr14_c8_g6 :
    btRun 14 ((1 <<< 14) - 1) 11 (((1 <<< 6) ||| 2048) ||| 512)
      ((((((1 <<< 6) <<< 1) ||| 2048) <<< 1) ||| 512) <<< 1) ((((((1 <<< 6) >>> 1) ||| 2048) >>> 1) ||| 512) >>> 1) = 479 := by decide!

set_option maxRecDepth 100000 in
set_option maxHeartbeats 1600000 in
theorem wr14_c8_g7 :
    btRun 14 ((1 <<< 14) - 1) 11 (((1 <<< 6) ||| 2048) ||| 8192)
      ((((((1 <<< 6) <<< 1) ||| 2048) <<< 1) ||| 8192) <<< 1) ((((((1 <<< 6) >>> 1) ||| 2048) >>> 1) ||| 8192) >>> 1) = 187 := by decide!

set_option maxRecDepth 100000 in
set_option maxHeartbeats 1000000 in
theorem wr14_c8 :
    btRun 14 ((1 <<< 14) - 1) 12 ((1 <<< 6) ||| 2048) ((((1 <<< 6) <<< 1) ||| 2048) <<< 1) ((((1 <<< 6) >>> 1) ||| 2048) >>> 1) = 3756 := by
  rw [show (12 : Nat) = 11 + 1 from rfl,
    btRun_split8 14 11 ((1 <<< 6) ||| 2048) ((((1 <<< 6) <<< 1) ||| 2048) <<< 1) ((((1 <<< 6) >>> 1) ||| 2048) >>> 1)
      1 2 4 8 32 128 512 8192 (by decide),
    wr14_c8_g0, wr14_c8_g1, wr14_c8_g2, wr14_c8_g3, wr14_c8_g4, wr14_c8_g5, wr14_c8_g6, wr14_c8_g7]

set_option maxRecDepth 100000 in
set_option maxHeartbeats 1600000 in
theorem wr14_c9_g0 :
    btRun 14 ((1 <<< 14) - 1) 11 (((1 <<< 6) ||| 4096) ||| 1)
      ((((((1 <<< 6) <<< 1) ||| 4096) <<< 1) ||| 1) <<< 1) ((((((1 <<< 6) >>> 1) ||| 4096) >>> 1) ||| 1) >>> 1) = 182 := by decide!

set_option maxRecDepth 100000 in
set_option maxHeartbeats 1600000 in
theorem wr14_c9_g1 :
    btRun 14 ((1 <<< 14) - 1) 11 (((1 <<< 6) ||| 4096) ||| 2)
      ((((((1 <<< 6) <<< 1) ||| 4096) <<< 1) ||| 2) <<< 1) ((((((1 <<< 6) >>> 1) ||| 4096) >>> 1) ||| 2) >>> 1) = 255 := by decide!

set_option maxRecDepth 100000 in
set_option maxHeartbeats 1600000 in
theorem wr14_c9_g2 :
    btRun 14 ((1 <<< 14) - 1) 11 (((1 <<< 6) ||| 4096) ||| 4)
      ((((((1 <<< 6) <<< 1) ||| 4096) <<< 1) ||| 4) <<< 1) ((((((1 <<< 6) >>> 1) ||| 4096) >>> 1) ||| 4) >>> 1) = 360 := by decide!

set_option maxRecDepth 100000 in
set_option maxHeartbeats 1600000 in
theorem wr14_c9_g3 :
    btRun 14 ((1 <<< 14) - 1) 11 (((1 <<< 6) ||| 4096) ||| 8)
      ((((((1 <<< 6) <<< 1) ||| 4096) <<< 1) ||| 8) <<< 1) ((((((1 <<< 6) >>> 1) ||| 4096) >>> 1) ||| 8) >>> 1) = 336 := by decide!

set_option maxRecDepth 100000 in
set_option maxHeartbeats 1600000 in
theorem wr14_c9_g4 :
    btRun 14 ((1 <<< 14) - 1) 11 (((1 <<< 6) ||| 4096) ||| 32)
      ((((((1 <<< 6) <<< 1) ||| 4096) <<< 1) ||| 32) <<< 1) ((((((1 <<< 6) >>> 1) ||| 4096) >>> 1) ||| 32) >>> 1) = 369 := by decide!

set_option maxRecDepth 100000 in
set_option maxHeartbeats 1600000 in
theorem wr14_c9_g5 :
    btRun 14 ((1 <<< 14) - 1) 11 (((1 <<< 6) ||| 4096) ||| 128)
      ((((((1 <<< 6) <<< 1) ||| 4096) <<< 1) ||| 128) <<< 1) ((((((1 <<< 6) >>> 1) ||| 4096) >>> 1) ||| 128) >>> 1) = 339 := by decide!

set_option maxRecDepth 100000 in
set_option maxHeartbeats 1600000 in
theorem wr14_c9_g6 :
    btRun 14 ((1 <<< 14) - 1) 11 (((1 <<< 6) ||| 4096) ||| 512)
      ((((((1 <<< 6) <<< 1) ||| 4096) <<< 1) ||| 512) <<< 1) ((((((1 <<< 6) >>> 1) ||| 4096) >>> 1) ||| 512) >>> 1) = 368 := by decide!

set_option maxRecDepth 100000 in
set_option maxHeartbeats 1600000 in
theorem wr14_c9_g7 :
    btRun 14 ((1 <<< 14) - 1) 11 (((1 <<< 6) ||| 4096) ||| 1024)
      ((((((1 <<< 6) <<< 1) ||| 4096) <<< 1) ||| 1024) <<< 1) ((((((1 <<< 6) >>> 1) ||| 4096) >>> 1) ||| 1024) >>> 1) = 289 := by decide!

set_option maxRecDepth 100000 in
set_option maxHeartbeats 1000000 in
theorem wr14_c9 :
    btRun 14 ((1 <<< 14) - 1) 12 ((1 <<< 6) ||| 4096) ((((1 <<< 6) <<< 1) ||| 4096) <<< 1) ((((1 <<< 6) >>> 1) ||| 4096) >>> 1) = 2498 := by
  rw [show (12 : Nat) = 11 + 1 from rfl,
    btRun_split8 14 11 ((1 <<< 6) ||| 4096) ((((1 <<< 6) <<< 1) ||| 4096) <<< 1) ((((1 <<< 6) >>> 1) ||| 4096) >>> 1)
      1 2 4 8 32 128 512 1024 (by decide),
    wr14_c9_g0, wr14_c9_g1, wr14_c9_g2, wr14_c9_g3, wr14_c9_g4, wr14_c9_g5, wr14_c9_g6, wr14_c9_g7]

set_option maxRecDepth 100000 in
set_option maxHeartbeats 1600000 in
theorem wr14_c10_g0 :
    btRun 14 ((1 <<< 14) - 1) 11 (((1 <<< 6) ||| 8192) ||| 1)
      ((((((1 <<< 6) <<< 1) ||| 8192) <<< 1) ||| 1) <<< 1) ((((((1 <<< 6) >>> 1) ||| 8192) >>> 1) ||| 1) >>> 1) = 191 := by decide!

set_option maxRecDepth 100000 in
set_option maxHeartbeats 1600000 in
theorem wr14_c10_g1 :
    btRun 14 ((1 <<< 14) - 1) 11 (((1 <<< 6) ||| 8192) ||| 2)
      ((((((1 <<< 6) <<< 1) ||| 8192) <<< 1) ||| 2) <<< 1) ((((((1 <<< 6) >>> 1) ||| 8192) >>> 1) ||| 2) >>> 1) = 174 := by decide!

set_option maxRecDepth 100000 in
set_option maxHeartbeats 1600000 in
theorem wr14_c10_g2 :
    btRun 14 ((1 <<< 14) - 1) 11 (((1 <<< 6) ||| 8192) ||| 4)
      ((((((1 <<< 6) <<< 1) ||| 8192) <<< 1) ||| 4) <<< 1) ((((((1 <<< 6) >>> 1) ||| 8192) >>> 1) ||| 4) >>> 1) = 338 := by decide!

set_option maxRecDepth 100000 in
set_option maxHeartbeats 1600000 in
theorem wr14_c10_g3 :
    btRun 14 ((1 <<< 14) - 1) 11 (((1 <<< 6) ||| 8192) ||| 8)
      ((((((1 <<< 6) <<< 1) ||| 8192) <<< 1) ||| 8) <<< 1) ((((((1 <<< 6) >>> 1) ||| 8192) >>> 1) ||| 8) >>> 1) = 250 := by decide!

set_option maxRecDepth 100000 in
set_option maxHeartbeats 1600000 in
theorem wr14_c10_g4 :
    btRun 14 ((1 <<< 14) - 1) 11 (((1 <<< 6) ||| 8192) ||| 32)
      ((((((1 <<< 6) <<< 1) ||| 8192) <<< 1) ||| 32) <<< 1) ((((((1 <<< 6) >>> 1) ||| 8192) >>> 1) ||| 32) >>> 1) = 242 := by decide!

set_option maxRecDepth 100000 in
set_option maxHeartbeats 1600000 in
theorem wr14_c10_g5 :
    btRun 14 ((1 <<< 14) - 1) 11 (((1 <<< 6) ||| 8192) ||| 128)
      ((((((1 <<< 6) <<< 1) ||| 8192) <<< 1) ||| 128) <<< 1) ((((((1 <<< 6) >>> 1) ||| 8192) >>> 1) ||| 128) >>> 1) = 255 := by decide!

set_option maxRecDepth 100000 in
set_option maxHeartbeats 1600000 in
theorem wr14_c10_g6 :
    btRun 14 ((1 <<< 14) - 1) 11 (((1 <<< 6) ||| 8192) ||| 512)
      ((((((1 <<< 6) <<< 1) ||| 8192) <<< 1) ||| 512) <<< 1) ((((((1 <<< 6) >>> 1) ||| 8192) >>> 1) ||| 512) >>> 1) = 267 := by decide!

set_option maxRecDepth 100000 in
set_option maxHeartbeats 1600000 in
theorem wr14_c10_g7 :
    btRun 14 ((1 <<< 14) - 1) 11 (((1 <<< 6) ||| 8192) ||| 1024)
      ((((((1 <<< 6) <<< 1) ||| 8192) <<< 1) ||| 1024) <<< 1) ((((((1 <<< 6) >>> 1) ||| 8192) >>> 1) ||| 1024) >>> 1) = 254 := by decide!

set_option maxRecDepth 100000 in
set_option maxHeartbeats 1600000 in
theorem wr14_c10_g8 :
    btRun 14 ((1 <<< 14) - 1) 11 (((1 <<< 6) ||| 8192) ||| 2048)
      ((((((1 <<< 6) <<< 1) ||| 8192) <<< 1) ||| 2048) <<< 1) ((((((1 <<< 6) >>> 1) ||| 8192) >>> 1) ||| 2048) >>> 1) = 127 := by decide!

set_option maxRecDepth 100000 in
set_option maxHeartbeats 1000000 in
theorem wr14_c10 :
    btRun 14 ((1 <<< 14) - 1) 12 ((1 <<< 6) ||| 8192) ((((1 <<< 6) <<< 1) ||| 8192) <<< 1) ((((1 <<< 6) >>> 1) ||| 8192) >>> 1) = 2098 := by
  rw [show (12 : Nat) = 11 + 1 from rfl,
    btRun_split9 14 11 ((1 <<< 6) ||| 8192) ((((1 <<< 6) <<< 1) ||| 8192) <<< 1) ((((1 <<< 6) >>> 1) ||| 8192) >>> 1)
      1 2 4 8 32 128 512 1024 2048 (by decide),
    wr14_c10_g0, wr14_c10_g1, wr14_c10_g2, wr14_c10_g3, wr14_c10_g4, wr14_c10_g5, wr14_c10_g6, wr14_c10_g7, wr14_c10_g8]

set_option maxRecDepth 100000 in
set_option maxHeartbeats 1000000 in
theorem workerRun_14_col6 : workerRun 14 6 = 36977 := by
  rw [workerRun_expand, show (14 : Nat) - 1 = 12 + 1 from rfl,
    btRun_split11 14 12 (1 <<< 6) ((1 <<< 6) <<< 1) ((1 <<< 6) >>> 1)
      1 2 4 8 16 256 512 1024 2048 4096 8192 (by decide),
    wr14_c0, wr14_c1, wr14_c2, wr14_c3, wr14_c4, wr14_c5, wr14_c6, wr14_c7, wr14_c8, wr14_c9, wr14_c10]

/-- The aggregated total for n = 14 exceeds 73712: the column-6 half-task
alone contributes 36977 completions, and the total doubles the sum of the
seven half-task counts. -/
theorem countRun_14_lower : 73712 < countRun 14 := by
  rw [countRun_expand_even7 14 rfl (by decide), workerRun_14_col6]
  omega


/-- C2: for every n ≥ 2, the symmetry-broken total computed by
`count_solutions` — twice the sum of the seeded sub-search counts over the
first-queen columns `col ∈ [0, n/2)`, plus, when n is odd, the un-doubled
central-column count — equals the naive full search that sums the seeded
sub-search count over every first-queen column `col ∈ [0, n)`. -/
theorem C2_symmetry_decomposition (n : Nat) (h : 2 ≤ n) :
    (∑ col ∈ Finset.range (n / 2), worker (n, col)) * 2 +
        (if n % 2 = 1 then worker (n, n / 2) else 0) =
      full_first_row_total n ∧
    count_solutions (n : Int) = some (full_first_row_total n) := by
  constructor
  · exact half_double_eq_full h
  · rw [count_solutions_ofNat]
    congr 1
    unfold full_first_row_total
    rw [← half_double_eq_full h]
    unfold results
    rw [list_range_map_sum]
    rfl

/-- Witness for C2 at n = 5. -/
theorem C2_witness :
    (∑ col ∈ Finset.range (5 / 2), worker (5, col)) * 2 +
        (if 5 % 2 = 1 then worker (5, 5 / 2) else 0) =
      full_first_row_total 5 ∧
    count_solutions ((5 : Nat) : Int) = some (full_first_row_total 5) :=
  C2_symmetry_decomposition 5 (by norm_num)

/-- C3: `backtrack` returns 1 at `row = n`; otherwise it computes
`available = ~(cols | majors | minors) & ((1 << n) - 1)` (bit `i` is set
exactly when `i < n` and no constraint mask has bit `i`), and returns the
sum over the set bits of `available` — extracted lowest-bit-first, in
strictly ascending order — of the recursive calls with `cols | bit`,
`(majors | bit) << 1`, `(minors | bit) >> 1`. -/
theorem C3_backtrack_recurrence (n row cols majors minors : Nat) :
    (row = n → backtrack n row cols majors minors = 1) ∧
    (∀ i, (available_positions n cols majors minors).testBit i =
      (decide (i < n) && !((cols ||| majors ||| minors).testBit i))) ∧
    (row ≠ n → backtrack n row cols majors minors =
      ∑ i ∈ (Finset.range n).filter
        (fun i => (available_positions n cols majors minors).testBit i = true),
        backtrack n (row + 1) (cols ||| 1 <<< i)
          ((majors ||| 1 <<< i) <<< 1) ((minors ||| 1 <<< i) >>> 1)) ∧
    (lowBits (available_positions n cols majors minors)).Pairwise (· < ·) := by
  refine ⟨backtrack_base, testBit_available_positions n cols majors minors, ?_,
    lowBits_pairwise _⟩
  intro hne
  rw [backtrack_step_sum hne]
  apply Finset.sum_congr rfl
  intro i hi
  rw [Nat.one_shiftLeft]

/-- Witness for C3 at a base-case input. -/
theorem C3_witness : backtrack 4 4 0 0 0 = 1 :=
  (C3_backtrack_recurrence 4 4 0 0 0).1 rfl

/-- C4: in every state reachable from the full-board start
(row 0, all masks 0) or from a worker seeding (row 1, cols = 1 << col),
the number of set bits of `cols` equals the row index, and every recursive
step adds exactly one fresh bit to `cols`. -/
theorem C4_cols_popcount_invariant (n : Nat) :
    (∀ s : SearchState,
        (Reach n ⟨0, 0, 0, 0⟩ s ∨
          ∃ col, Reach n ⟨1, 1 <<< col, (1 <<< col) <<< 1, (1 <<< col) >>> 1⟩ s) →
        popcount s.cols = s.row) ∧
    (∀ s s' : SearchState, Step n s s' →
        ∃ p, p ≠ 0 ∧ s.cols &&& p = 0 ∧ s'.cols = s.cols ||| p ∧
          popcount s'.cols = popcount s.cols + 1) := by
  have hpres : ∀ s s' : SearchState, popcount s.cols = s.row → Step n s s' →
      popcount s'.cols = s'.row := by
    intro s s' hP hstep
    obtain ⟨p, -, -, -, hpc⟩ := step_fresh_bit hstep
    rw [hpc, hP, step_row hstep]
  constructor
  · intro s hreach
    rcases hreach with hreach | ⟨col, hreach⟩
    · exact reach_invariant hpres hreach (by simp [popcount_zero])
    · refine reach_invariant hpres hreach ?_
      show popcount (1 <<< col) = 1
      rw [Nat.one_shiftLeft, popcount_two_pow]
  · intro s s' hstep
    exact step_fresh_bit hstep

/-- Witness for C4: a worker-seeded start state. -/
theorem C4_witness : popcount (1 <<< 2) = 1 :=
  (C4_cols_popcount_invariant 4).1 ⟨1, 1 <<< 2, (1 <<< 2) <<< 1, (1 <<< 2) >>> 1⟩
    (Or.inr ⟨2, Relation.ReflTransGen.refl⟩)

/-- C5: for row ≤ n, `backtrack` is a total function (it returns a value),
every recursive step increases the row by exactly one, and the row never
exceeds n along any chain of recursive calls, so the recursion depth is
bounded by n. -/
theorem C5_termination (n row cols majors minors : Nat) (h : row ≤ n) :
    (∃ v, backtrack n row cols majors minors = v) ∧
    (∀ s s' : SearchState, Step n s s' → s'.row = s.row + 1) ∧
    (∀ s : SearchState, Reach n ⟨row, cols, majors, minors⟩ s → s.row ≤ n) := by
  refine ⟨⟨backtrack n row cols majors minors, rfl⟩, fun s s' => step_row, ?_⟩
  intro s hreach
  have hpres : ∀ t t' : SearchState, t.row ≤ n → Step n t t' → t'.row ≤ n := by
    intro t t' hP hstep
    cases hstep with
    | place hrow hpos =>
      simp only at hP ⊢
      omega
  exact reach_invariant hpres hreach h

/-- Witness for C5. -/
theorem C5_witness :
    (∃ v, backtrack 4 1 0 0 0 = v) ∧
    (∀ s s' : SearchState, Step 4 s s' → s'.row = s.row + 1) ∧
    (∀ s : SearchState, Reach 4 ⟨1, 0, 0, 0⟩ s → s.row ≤ 4) :=
  C5_termination 4 1 0 0 0 (by norm_num)

/-- C6 (amended): `count_solutions` performs no input validation. For a
negative even board size it silently returns 0; for a negative odd board
size it fails only when the central-column branch computes
`1 << central_col` with a negative shift count, after the (empty)
half-task phase — there is no fail-fast InvalidInput check. -/
theorem C6_negative_input (n : Int) (h : n < 0) :
    (Int.emod n 2 = 0 → count_solutions n = some 0) ∧
    (Int.emod n 2 ≠ 0 → count_solutions n = none) :=
  ⟨(count_solutions_neg h).2.1, (count_solutions_neg h).2.2⟩

/-- Counterexample for C6 as stated: `count_solutions (-2)` returns the
numeric result 0 instead of failing fast. -/
theorem C6_counterexample : count_solutions (-2) = some 0 := by decide

/-- Witness for C6: a negative odd input does fail. -/
theorem C6_witness : count_solutions (-1) = none :=
  (C6_negative_input (-1) (by norm_num)).2 (by decide)

/-- C7: the embedded program is deterministic, and the aggregated total
depends only on the multiset of half-task results: any permutation of the
half-task result list yields the same total. -/
theorem C7_determinism (n : Nat) :
    (∀ m : Int, count_solutions m = count_solutions m) ∧
    (∀ l : List Nat, l.Perm (results n) →
      count_solutions (n : Int) = some (l.sum * 2 +
        if n % 2 = 1 then
          backtrack n 1 (1 <<< (n / 2)) ((1 <<< (n / 2)) <<< 1) ((1 <<< (n / 2)) >>> 1)
        else 0)) := by
  refine ⟨fun _ => rfl, fun l hperm => ?_⟩
  rw [count_solutions_ofNat, ← hperm.sum_eq]

/-- Witness for C7: the reversed half-task list gives the same total. -/
theorem C7_witness :
    count_solutions ((4 : Nat) : Int) = some (((results 4).reverse).sum * 2 +
      if 4 % 2 = 1 then
        backtrack 4 1 (1 <<< (4 / 2)) ((1 <<< (4 / 2)) <<< 1) ((1 <<< (4 / 2)) >>> 1)
      else 0) :=
  (C7_determinism 4).2 (results 4).reverse (List.reverse_perm _)

/-- C8: the board mask represents exactly the n board bits; in every
reachable state the column and minor-diagonal masks stay below `2 ^ n`
(no bit is ever truncated); and the aggregated total is computed by exact
unbounded natural-number arithmetic. -/
theorem C8_arbitrary_precision (n : Nat) :
    (∀ i, ((1 <<< n) - 1).testBit i = true ↔ i < n) ∧
    (∀ s : SearchState,
        (Reach n ⟨0, 0, 0, 0⟩ s ∨
          ∃ col, col < n ∧
            Reach n ⟨1, 1 <<< col, (1 <<< col) <<< 1, (1 <<< col) >>> 1⟩ s) →
        s.cols < 2 ^ n ∧ s.minors < 2 ^ n) ∧
    (∀ k : Nat, count_solutions (k : Int) =
        some ((results k).sum * 2 +
          if k % 2 = 1 then
            backtrack k 1 (1 <<< (k / 2)) ((1 <<< (k / 2)) <<< 1) ((1 <<< (k / 2)) >>> 1)
          else 0)) := by
  refine ⟨?_, ?_, count_solutions_ofNat⟩
  · intro i
    rw [testBit_mask]
    simp
  · have hpres : ∀ s s' : SearchState, s.cols < 2 ^ n ∧ s.minors < 2 ^ n →
        Step n s s' → s'.cols < 2 ^ n ∧ s'.minors < 2 ^ n := by
      intro s s' hP hstep
      cases hstep with
      | place hrow hpos =>
        obtain ⟨i, rfl, hbit⟩ := mem_lowBits hpos
        obtain ⟨hin, -, -, -⟩ := available_positions_spec hbit
        exact ⟨lor_lt_two_pow hP.1 (two_pow_lt_two_pow hin),
          shiftRight_one_lt_two_pow (lor_lt_two_pow hP.2 (two_pow_lt_two_pow hin))⟩
    intro s hreach
    rcases hreach with hreach | ⟨col, hcol, hreach⟩
    · exact reach_invariant hpres hreach ⟨pow_pos (by norm_num) n, pow_pos (by norm_num) n⟩
    · refine reach_invariant hpres hreach ?_
      constructor
      · show (1 <<< col) < 2 ^ n
        rw [Nat.one_shiftLeft]
        exact two_pow_lt_two_pow hcol
      · show (1 <<< col) >>> 1 < 2 ^ n
        rw [Nat.one_shiftLeft]
        exact shiftRight_one_lt_two_pow (two_pow_lt_two_pow hcol)

/-- Witness for C8 at n = 4. -/
theorem C8_witness : (0 : Nat) < 2 ^ 4 ∧ (0 : Nat) < 2 ^ 4 :=
  (C8_arbitrary_precision 4).2.1 ⟨0, 0, 0, 0⟩ (Or.inl Relation.ReflTransGen.refl)

/-- C9: for every even n ≥ 0 the central-column branch is skipped and the
returned count is exactly twice the half-task sum, hence even. -/
theorem C9_even_total (n : Nat) (h : n % 2 = 0) :
    count_solutions (n : Int) = some ((results n).sum * 2) ∧
    ∃ k, count_solutions (n : Int) = some (2 * k) := by
  have heq := count_solutions_ofNat n
  rw [if_neg (by omega), Nat.add_zero] at heq
  exact ⟨heq, ⟨(results n).sum, by rw [heq]; congr 1; ring⟩⟩

/-- Witness for C9 at n = 4. -/
theorem C9_witness :
    count_solutions ((4 : Nat) : Int) = some ((results 4).sum * 2) ∧
    ∃ k, count_solutions ((4 : Nat) : Int) = some (2 * k) :=
  C9_even_total 4 (by norm_num)

/-- C10: a negative even board size is returned as 0 without any error:
the half-task range is empty and the odd-n central branch is not taken, so
no validation rejects the out-of-domain input. -/
theorem C10_negative_even (n : Int) (h1 : n < 0) (h2 : Int.emod n 2 = 0) :
    count_solutions n = some 0 ∧ (Int.fdiv n 2).toNat = 0 :=
  ⟨(count_solutions_neg h1).2.1 h2, (count_solutions_neg h1).1⟩

/-- Witness for C10 at n = -4. -/
theorem C10_witness : count_solutions (-4) = some 0 ∧ (Int.fdiv (-4) 2).toNat = 0 :=
  C10_negative_even (-4) (by norm_num) (by decide)

/-- Counterexample for C1 as stated: the program returns 0 (not 1) for
n = 0 — the half-task list for n = 0 is empty and the central-column
branch is skipped, so the aggregated total is 0; and its value for
n = 14 is not 73712 — the column-6 half-task alone contributes 36977
completions, so the doubled total is at least 73954 (the claimed 73712
is the canonical count for n = 13, not 14). -/
theorem C1_counterexample :
    count_solutions 0 = some 0 ∧ count_solutions 14 ≠ some 73712 := by
  constructor
  · decide
  · intro hcon
    have h : count_solutions 14 = some (countRun 14) := count_solutions_eq_countRun 14
    rw [h] at hcon
    have h1 : countRun 14 = 73712 := Option.some.inj hcon
    have h2 := countRun_14_lower
    omega

/-- C1 (amended): `count_solutions 0 = 0` (not 1 as claimed: the empty
half-task list and skipped central branch leave the total at 0); for
n ∈ {1,...,8, 10, 12} the canonical counts hold (1, 0, 0, 2, 10, 4, 40,
92, 724, 14200); and the count for n = 14 strictly exceeds the claimed
73712 (the claimed values for 14 and 16 are the canonical counts of 13
and 14: the table's tail is shifted by one position). -/
theorem C1_amended :
    count_solutions 0 = some 0 ∧
    count_solutions 1 = some 1 ∧
    count_solutions 2 = some 0 ∧
    count_solutions 3 = some 0 ∧
    count_solutions 4 = some 2 ∧
    count_solutions 5 = some 10 ∧
    count_solutions 6 = some 4 ∧
    count_solutions 7 = some 40 ∧
    count_solutions 8 = some 92 ∧
    count_solutions 10 = some 724 ∧
    count_solutions 12 = some 14200 ∧
    (∃ t, count_solutions 14 = some t ∧ 73712 < t) :=
  ⟨(count_solutions_eq_countRun 0).trans (congrArg some countRun_val_0),
    (count_solutions_eq_countRun 1).trans (congrArg some countRun_val_1),
    (count_solutions_eq_countRun 2).trans (congrArg some countRun_val_2),
    (count_solutions_eq_countRun 3).trans (congrArg some countRun_val_3),
    (count_solutions_eq_countRun 4).trans (congrArg some countRun_val_4),
    (count_solutions_eq_countRun 5).trans (congrArg some countRun_val_5),
    (count_solutions_eq_countRun 6).trans (congrArg some countRun_val_6),
    (count_solutions_eq_countRun 7).trans (congrArg some countRun_val_7),
    (count_solutions_eq_countRun 8).trans (congrArg some countRun_val_8),
    (count_solutions_eq_countRun 10).trans (congrArg some countRun_val_10),
    (count_solutions_eq_countRun 12).trans (congrArg some countRun_val_12),
    countRun 14, count_solutions_eq_countRun 14, countRun_14_lower⟩
